import Mathlib

/-!
Verification development for the QuickBooks workflow node
(packages/nodes-base/nodes/QuickBooks/QuickBooks.node.ts).

The execute method is embedded shallowly: JSON payloads (IDataObject) become
an inductive value type, the host parameter resolution becomes an explicit
environment, and the HTTP transport becomes a network oracle mapping each
outbound request to its response.  Running the node is then a deterministic
function of the environment and the oracle, returning the run result together
with the ordered trace of outbound HTTP requests.

Helper routines of GenericFunctions.ts (getSyncToken, getRefAndSyncToken,
processLines, populateFields, handleListing, handleBinaryData) are not part
of the source tree; they are modelled from the specification, as marked in
their doc comments.
-/

/-- JSON-like value, modelling the IDataObject payloads of the node.
JavaScript `undefined` is modelled by absence (`Option`/missing key),
not by a constructor. -/
inductive JValue where
  | null : JValue
  | bool : Bool → JValue
  | num : Int → JValue
  | str : String → JValue
  | arr : List JValue → JValue
  | obj : List (String × JValue) → JValue

/-- Property access `v[k]` on a value: `none` models `undefined`. -/
def jgetOpt : JValue → String → Option JValue
  | .obj o, k => List.lookup k o
  | _, _ => none

/-- Property access with a null default, for places where the node reads a
field of an envelope it assumes to be present. -/
def jget (v : JValue) (k : String) : JValue := (jgetOpt v k).getD .null

/-- Array indexing `v[n]`. -/
def jidx : JValue → Nat → JValue
  | .arr vs, n => vs.getD n .null
  | _, _ => .null

mutual

/-- JavaScript template-literal stringification of a value, as used in
endpoint interpolation such as a company or entity id inside a URL. -/
def jstr : JValue → String
  | .null => "null"
  | .bool b => if b then "true" else "false"
  | .num n => toString n
  | .str s => s
  | .arr vs => String.intercalate "," (jstrList vs)
  | .obj _ => "[object Object]"

def jstrList : List JValue → List String
  | [] => []
  | v :: vs => jstr v :: jstrList vs

end

/-- The unchecked `as string` cast: faithful on strings, which is the only
shape the host delivers for these parameters. -/
def asStr : JValue → String
  | .str s => s
  | _ => ""

/-- The unchecked `as IDataObject[]` cast used for the Line parameter. -/
def asLines : JValue → List JValue
  | .arr vs => vs
  | _ => []

/-- The unchecked `as IDataObject` cast used for field mappings. -/
def asObj : JValue → List (String × JValue)
  | .obj o => o
  | _ => []

/-- JavaScript truthiness, as used by `if (download)`. -/
def truthy : JValue → Bool
  | .null => false
  | .bool b => b
  | .num n => decide (n ≠ 0)
  | .str s => !s.isEmpty
  | .arr _ => true
  | .obj _ => true

/-- lodash isEmpty on our value domain: objects and arrays by entry count,
strings by length, primitives are always empty. -/
def jIsEmpty : JValue → Bool
  | .obj o => o.isEmpty
  | .arr a => a.isEmpty
  | .str s => s.isEmpty
  | .num _ => true
  | .bool _ => true
  | .null => true

/-- capitalCase from the change-case package, restricted to the single
lowercase words used as resource names by this node. -/
def capitalCase (s : String) : String := s.capitalize

/-- JavaScript object assignment `o[k] = v` on association-list objects:
replaces the existing entry in place, or appends a new one. -/
def objSet (o : List (String × JValue)) (k : String) (v : JValue) :
    List (String × JValue) :=
  if (List.lookup k o).isSome then
    o.map (fun kv => if kv.1 = k then (k, v) else kv)
  else o ++ [(k, v)]

/-- An outbound HTTP request as issued through quickBooksApiRequest:
method, endpoint, query-string object and body object. -/
structure HttpRequest where
  method : String
  endpoint : String
  qs : List (String × JValue)
  body : List (String × JValue)

/-- The host parameter-resolution interface: getNodeParameter by name and
item index. -/
structure Env where
  param : String → Nat → JValue

/-- Modelled from the spec: the single-entity read issued by the
Concurrency-Token Resolver of GenericFunctions.ts (not under src).  Per
sections 4.3 and 6 it is a `GET /v3/company/(companyId)/(resource)/(id)`
fetch of the current entity; the entity id is resolved from the item
parameter named like the id parameters at the other call sites. -/
def entityReadReq (env : Env) (companyId resource : String) (i : Nat) :
    HttpRequest :=
  { method := "GET"
    endpoint := "/v3/company/" ++ companyId ++ "/" ++ resource ++ "/" ++
      jstr (env.param (resource ++ "Id") i)
    qs := []
    body := [] }

/-- Modelled from the spec: the SyncToken extracted from the entity read,
which arrives wrapped in an envelope keyed by the capitalized resource. -/
def freshSyncToken (env : Env) (net : HttpRequest → JValue)
    (companyId resource : String) (i : Nat) : JValue :=
  jget (jget (net (entityReadReq env companyId resource i))
    (capitalCase resource)) "SyncToken"

/-- Modelled from the spec: the denormalized reference object extracted from
the same entity read (section 4.3). -/
def freshRef (env : Env) (net : HttpRequest → JValue)
    (companyId resource refKey : String) (i : Nat) : JValue :=
  jget (jget (net (entityReadReq env companyId resource i))
    (capitalCase resource)) refKey

/-- Modelled from the spec: GenericFunctions.getSyncToken (not under src).
Section 4.3: issue a read of the current entity and extract its SyncToken;
returns the read request (for the trace) together with the token. -/
def getSyncToken (env : Env) (net : HttpRequest → JValue) (i : Nat)
    (companyId resource : String) : HttpRequest × JValue :=
  (entityReadReq env companyId resource i,
   freshSyncToken env net companyId resource i)

/-- Result of getRefAndSyncToken: the reference display name and id plus the
concurrency token, all extracted from one read. -/
structure RefAndToken where
  refName : JValue
  refValue : JValue
  syncToken : JValue

/-- Modelled from the spec: GenericFunctions.getRefAndSyncToken (not under
src).  Section 4.3: a single read of the current entity yields both the
SyncToken and the denormalized reference (id and display name). -/
def getRefAndSyncToken (env : Env) (net : HttpRequest → JValue) (i : Nat)
    (companyId resource refKey : String) : HttpRequest × RefAndToken :=
  (entityReadReq env companyId resource i,
   { refName := jget (freshRef env net companyId resource refKey i) "name"
     refValue := jget (freshRef env net companyId resource refKey i) "value"
     syncToken := freshSyncToken env net companyId resource i })

/-- The string a strict comparison `line.DetailType === s` can match:
only string-valued detail types compare equal to a string literal. -/
def lineDetailType (line : JValue) : String :=
  match jgetOpt line "DetailType" with
  | some (.str s) => s
  | _ => ""

/-- The per-line missing-field test of the create handlers:
DetailType, Amount or Description undefined. -/
def lineMissingCore (line : JValue) : Bool :=
  (jgetOpt line "DetailType").isNone || (jgetOpt line "Amount").isNone ||
    (jgetOpt line "Description").isNone

/-- First error raised by the per-line forEach checks of bill create:
account-based lines need an accountId, item-based lines an itemId. -/
def lineRefErrorBill : List JValue → Option String
  | [] => none
  | line :: rest =>
    if lineDetailType line == "AccountBasedExpenseLineDetail" &&
        (jgetOpt line "accountId").isNone then
      some "Please enter an account ID for the associated line."
    else if lineDetailType line == "ItemBasedExpenseLineDetail" &&
        (jgetOpt line "itemId").isNone then
      some "Please enter an item ID for the associated line."
    else lineRefErrorBill rest

/-- First error raised by the per-line forEach checks of estimate and
invoice create: sales-item lines need an itemId. -/
def lineRefErrorSales : List JValue → Option String
  | [] => none
  | line :: rest =>
    if lineDetailType line == "SalesItemLineDetail" &&
        (jgetOpt line "itemId").isNone then
      some "Please enter an item ID for the associated line."
    else lineRefErrorSales rest

/-- The three core fields every transformed line keeps (section 4.4). -/
def lineBase (line : JValue) : List (String × JValue) :=
  [("DetailType", jget line "DetailType"), ("Amount", jget line "Amount"),
   ("Description", jget line "Description")]

/-- Modelled from the spec: the per-line transformation of
GenericFunctions.processLines (not under src).  Section 4.4: a validated
line becomes DetailType, Amount, Description plus a nested detail object
keyed by the detail type, holding AccountRef or ItemRef with the id; the
applicable detail types are conditioned on the owning resource exactly as
the validation table of section 4.4 is. -/
def transformLine (resource : String) (line : JValue) : JValue :=
  if resource == "bill" then
    if lineDetailType line == "AccountBasedExpenseLineDetail" then
      .obj (lineBase line ++ [("AccountBasedExpenseLineDetail",
        .obj [("AccountRef", .obj [("value", jget line "accountId")])])])
    else if lineDetailType line == "ItemBasedExpenseLineDetail" then
      .obj (lineBase line ++ [("ItemBasedExpenseLineDetail",
        .obj [("ItemRef", .obj [("value", jget line "itemId")])])])
    else line
  else if resource == "estimate" || resource == "invoice" then
    if lineDetailType line == "SalesItemLineDetail" then
      .obj (lineBase line ++ [("SalesItemLineDetail",
        .obj [("ItemRef", .obj [("value", jget line "itemId")])])])
    else line
  else line

/-- Modelled from the spec: GenericFunctions.processLines (not under src).
Section 4.4: transforms the raw lines one by one, preserving order; the
body argument mirrors the call sites and is not consumed. -/
def processLines (body : List (String × JValue)) (lines : List JValue)
    (resource : String) : List JValue :=
  lines.map (transformLine resource)

/-- Modelled from the spec: GenericFunctions.populateFields (not under src).
Section 4.2: merges the additional or update fields mapping into the body,
field names passed through as-is; the per-resource reference-value
translation of section 4.2 does not change which keys are present and is
modelled as the identity on values. -/
def populateFields (body fields : List (String × JValue))
    (resource : String) : List (String × JValue) :=
  fields.foldl (fun acc kv => objSet acc kv.1 kv.2) body

/-- Modelled from the spec: GenericFunctions.handleListing (not under src).
Sections 4.5 and 6: drives the SQL-like query endpoint and returns the
flattened listing; pagination mechanics are an external-collaborator
concern and are collapsed into a single query call whose response is the
concatenated listing. -/
def handleListing (net : HttpRequest → JValue) (i : Nat)
    (endpoint resource : String) : HttpRequest × JValue :=
  let req : HttpRequest :=
    ⟨"GET", endpoint, [("query", .str ("SELECT * FROM " ++ resource))], []⟩
  (req, net req)

/-- Outcome of processing one input item: continue with a new responseData
value, throw an Error, or return early with a binary attachment (the
handleBinaryData short circuit).  Each carries the requests it issued. -/
inductive StepResult where
  | ok : Option JValue → List HttpRequest → StepResult
  | thrown : String → List HttpRequest → StepResult
  | binary : Nat → String → JValue → List HttpRequest → StepResult

/-- The bill branch of execute. -/
def billStep (env : Env) (net : HttpRequest → JValue)
    (companyId resource operation : String) (i : Nat) (prev : Option JValue) :
    StepResult :=
  if operation = "create" then
    let lines := asLines (env.param "Line" i)
    if lines.length = 0 then
      .thrown ("Please enter at least one line for the " ++ resource ++ ".") []
    else if lines.any lineMissingCore then
      .thrown "Please enter detail type, amount and description for every line." []
    else
      match lineRefErrorBill lines with
      | some msg => .thrown msg []
      | none =>
        let body0 : List (String × JValue) :=
          [("VendorRef", .obj [("value", env.param "VendorRef" i)])]
        let body1 := objSet body0 "Line" (.arr (processLines body0 lines resource))
        let body2 := populateFields body1 (asObj (env.param "additionalFields" i)) resource
        let req : HttpRequest :=
          ⟨"POST", "/v3/company/" ++ companyId ++ "/" ++ resource, [], body2⟩
        .ok (jgetOpt (net req) (capitalCase resource)) [req]
  else if operation = "get" then
    let req : HttpRequest :=
      ⟨"GET", "/v3/company/" ++ companyId ++ "/" ++ resource ++ "/" ++
        jstr (env.param "billId" i), [], []⟩
    .ok (jgetOpt (net req) (capitalCase resource)) [req]
  else if operation = "getAll" then
    let r := handleListing net i ("/v3/company/" ++ companyId ++ "/query") resource
    .ok (some r.2) [r.1]
  else if operation = "update" then
    let rt := getRefAndSyncToken env net i companyId resource "VendorRef"
    let body0 : List (String × JValue) :=
      [("Id", env.param "billId" i), ("SyncToken", rt.2.syncToken),
       ("sparse", .bool true),
       ("VendorRef", .obj [("name", rt.2.refName), ("value", rt.2.refValue)])]
    let updateFields := env.param "updateFields" i
    if jIsEmpty updateFields then
      .thrown ("Please enter at least one field to update for the " ++ resource ++ ".") [rt.1]
    else
      let body := populateFields body0 (asObj updateFields) resource
      let req : HttpRequest :=
        ⟨"POST", "/v3/company/" ++ companyId ++ "/" ++ resource, [], body⟩
      .ok (jgetOpt (net req) (capitalCase resource)) [rt.1, req]
  else .ok prev []

/-- The customer branch of execute. -/
def customerStep (env : Env) (net : HttpRequest → JValue)
    (companyId resource operation : String) (i : Nat) (prev : Option JValue) :
    StepResult :=
  if operation = "create" then
    let body0 : List (String × JValue) :=
      [("DisplayName", env.param "displayName" i)]
    let body := populateFields body0 (asObj (env.param "additionalFields" i)) resource
    let req : HttpRequest :=
      ⟨"POST", "/v3/company/" ++ companyId ++ "/" ++ resource, [], body⟩
    .ok (jgetOpt (net req) (capitalCase resource)) [req]
  else if operation = "get" then
    let req : HttpRequest :=
      ⟨"GET", "/v3/company/" ++ companyId ++ "/" ++ resource ++ "/" ++
        jstr (env.param "customerId" i), [], []⟩
    .ok (jgetOpt (net req) (capitalCase resource)) [req]
  else if operation = "getAll" then
    let r := handleListing net i ("/v3/company/" ++ companyId ++ "/query") resource
    .ok (some r.2) [r.1]
  else if operation = "update" then
    let st := getSyncToken env net i companyId resource
    let body0 : List (String × JValue) :=
      [("Id", env.param "customerId" i), ("SyncToken", st.2),
       ("sparse", .bool true)]
    let updateFields := env.param "updateFields" i
    if jIsEmpty updateFields then
      .thrown ("Please enter at least one field to update for the " ++ resource ++ ".") [st.1]
    else
      let body := populateFields body0 (asObj updateFields) resource
      let req : HttpRequest :=
        ⟨"POST", "/v3/company/" ++ companyId ++ "/" ++ resource, [], body⟩
      .ok (jgetOpt (net req) (capitalCase resource)) [st.1, req]
  else .ok prev []

/-- The employee branch of execute. -/
def employeeStep (env : Env) (net : HttpRequest → JValue)
    (companyId resource operation : String) (i : Nat) (prev : Option JValue) :
    StepResult :=
  if operation = "create" then
    let body0 : List (String × JValue) :=
      [("FamilyName", env.param "FamilyName" i),
       ("GivenName", env.param "GivenName" i)]
    let body := populateFields body0 (asObj (env.param "additionalFields" i)) resource
    let req : HttpRequest :=
      ⟨"POST", "/v3/company/" ++ companyId ++ "/" ++ resource, [], body⟩
    .ok (jgetOpt (net req) (capitalCase resource)) [req]
  else if operation = "get" then
    let req : HttpRequest :=
      ⟨"GET", "/v3/company/" ++ companyId ++ "/" ++ resource ++ "/" ++
        jstr (env.param "employeeId" i), [], []⟩
    .ok (jgetOpt (net req) (capitalCase resource)) [req]
  else if operation = "getAll" then
    let r := handleListing net i ("/v3/company/" ++ companyId ++ "/query") resource
    .ok (some r.2) [r.1]
  else if operation = "update" then
    let st := getSyncToken env net i companyId resource
    let body0 : List (String × JValue) :=
      [("Id", env.param "employeeId" i), ("SyncToken", st.2),
       ("sparse", .bool true)]
    let updateFields := env.param "updateFields" i
    if jIsEmpty updateFields then
      .thrown ("Please enter at least one field to update for the " ++ resource ++ ".") [st.1]
    else
      let body := populateFields body0 (asObj updateFields) resource
      let req : HttpRequest :=
        ⟨"POST", "/v3/company/" ++ companyId ++ "/" ++ resource, [], body⟩
      .ok (jgetOpt (net req) (capitalCase resource)) [st.1, req]
  else .ok prev []

/-- The estimate branch of execute. -/
def estimateStep (env : Env) (net : HttpRequest → JValue)
    (companyId resource operation : String) (i : Nat) (prev : Option JValue) :
    StepResult :=
  if operation = "create" then
    let lines := asLines (env.param "Line" i)
    if lines.length = 0 then
      .thrown ("Please enter at least one line for the " ++ resource ++ ".") []
    else if lines.any lineMissingCore then
      .thrown "Please enter detail type, amount and description for every line." []
    else
      match lineRefErrorSales lines with
      | some msg => .thrown msg []
      | none =>
        let body0 : List (String × JValue) :=
          [("CustomerRef", .obj [("value", env.param "CustomerRef" i)])]
        let body1 := objSet body0 "Line" (.arr (processLines body0 lines resource))
        let body2 := populateFields body1 (asObj (env.param "additionalFields" i)) resource
        let req : HttpRequest :=
          ⟨"POST", "/v3/company/" ++ companyId ++ "/" ++ resource, [], body2⟩
        .ok (jgetOpt (net req) (capitalCase resource)) [req]
  else if operation = "get" then
    let estimateId := env.param "estimateId" i
    let download := truthy (env.param "download" i)
    if download then
      .binary i resource estimateId []
    else
      let req : HttpRequest :=
        ⟨"GET", "/v3/company/" ++ companyId ++ "/" ++ resource ++ "/" ++
          jstr estimateId, [], []⟩
      .ok (jgetOpt (net req) (capitalCase resource)) [req]
  else if operation = "getAll" then
    let r := handleListing net i ("/v3/company/" ++ companyId ++ "/query") resource
    .ok (some r.2) [r.1]
  else if operation = "update" then
    let rt := getRefAndSyncToken env net i companyId resource "CustomerRef"
    let body0 : List (String × JValue) :=
      [("Id", env.param "estimateId" i), ("SyncToken", rt.2.syncToken),
       ("sparse", .bool true),
       ("CustomerRef", .obj [("name", rt.2.refName), ("value", rt.2.refValue)])]
    let updateFields := env.param "updateFields" i
    if jIsEmpty updateFields then
      .thrown ("Please enter at least one field to update for the " ++ resource ++ ".") [rt.1]
    else
      let body := populateFields body0 (asObj updateFields) resource
      let req : HttpRequest :=
        ⟨"POST", "/v3/company/" ++ companyId ++ "/" ++ resource, [], body⟩
      .ok (jgetOpt (net req) (capitalCase resource)) [rt.1, req]
  else .ok prev []

/-- The invoice branch of execute. -/
def invoiceStep (env : Env) (net : HttpRequest → JValue)
    (companyId resource operation : String) (i : Nat) (prev : Option JValue) :
    StepResult :=
  if operation = "create" then
    let lines := asLines (env.param "Line" i)
    if lines.length = 0 then
      .thrown ("Please enter at least one line for the " ++ resource ++ ".") []
    else if lines.any lineMissingCore then
      .thrown "Please enter detail type, amount and description for every line." []
    else
      match lineRefErrorSales lines with
      | some msg => .thrown msg []
      | none =>
        let body0 : List (String × JValue) :=
          [("CustomerRef", .obj [("value", env.param "CustomerRef" i)])]
        let body1 := objSet body0 "Line" (.arr (processLines body0 lines resource))
        let body2 := populateFields body1 (asObj (env.param "additionalFields" i)) resource
        let req : HttpRequest :=
          ⟨"POST", "/v3/company/" ++ companyId ++ "/" ++ resource, [], body2⟩
        .ok (jgetOpt (net req) (capitalCase resource)) [req]
  else if operation = "delete" then
    let st := getSyncToken env net i companyId resource
    let qs : List (String × JValue) := [("operation", .str "delete")]
    let body : List (String × JValue) :=
      [("Id", env.param "invoiceId" i), ("SyncToken", st.2)]
    let req : HttpRequest :=
      ⟨"POST", "/v3/company/" ++ companyId ++ "/" ++ resource, qs, body⟩
    .ok (jgetOpt (net req) (capitalCase resource)) [st.1, req]
  else if operation = "get" then
    let invoiceId := env.param "invoiceId" i
    let download := truthy (env.param "download" i)
    if download then
      .binary i resource invoiceId []
    else
      let req : HttpRequest :=
        ⟨"GET", "/v3/company/" ++ companyId ++ "/" ++ resource ++ "/" ++
          jstr invoiceId, [], []⟩
      .ok (jgetOpt (net req) (capitalCase resource)) [req]
  else if operation = "getAll" then
    let r := handleListing net i ("/v3/company/" ++ companyId ++ "/query") resource
    .ok (some r.2) [r.1]
  else if operation = "send" then
    let qs : List (String × JValue) := [("sendTo", env.param "email" i)]
    let req : HttpRequest :=
      ⟨"POST", "/v3/company/" ++ companyId ++ "/" ++ resource ++ "/" ++
        jstr (env.param "invoiceId" i) ++ "/send", qs, []⟩
    .ok (jgetOpt (net req) (capitalCase resource)) [req]
  else if operation = "update" then
    let rt := getRefAndSyncToken env net i companyId resource "CustomerRef"
    let body0 : List (String × JValue) :=
      [("Id", env.param "invoiceId" i), ("SyncToken", rt.2.syncToken),
       ("sparse", .bool true),
       ("CustomerRef", .obj [("name", rt.2.refName), ("value", rt.2.refValue)])]
    let updateFields := env.param "updateFields" i
    if jIsEmpty updateFields then
      .thrown ("Please enter at least one field to update for the " ++ resource ++ ".") [rt.1]
    else
      let body := populateFields body0 (asObj updateFields) resource
      let req : HttpRequest :=
        ⟨"POST", "/v3/company/" ++ companyId ++ "/" ++ resource, [], body⟩
      .ok (jgetOpt (net req) (capitalCase resource)) [rt.1, req]
  else if operation = "void" then
    let st := getSyncToken env net i companyId resource
    let qs : List (String × JValue) :=
      [("Id", env.param "invoiceId" i), ("SyncToken", st.2),
       ("operation", .str "void")]
    let req : HttpRequest :=
      ⟨"POST", "/v3/company/" ++ companyId ++ "/" ++ resource, qs, []⟩
    .ok (jgetOpt (net req) (capitalCase resource)) [st.1, req]
  else .ok prev []

/-- The item branch of execute. -/
def itemStep (env : Env) (net : HttpRequest → JValue)
    (companyId resource operation : String) (i : Nat) (prev : Option JValue) :
    StepResult :=
  if operation = "get" then
    let req : HttpRequest :=
      ⟨"GET", "/v3/company/" ++ companyId ++ "/" ++ resource ++ "/" ++
        jstr (env.param "itemId" i), [], []⟩
    .ok (jgetOpt (net req) (capitalCase resource)) [req]
  else if operation = "getAll" then
    let r := handleListing net i ("/v3/company/" ++ companyId ++ "/query") resource
    .ok (some r.2) [r.1]
  else .ok prev []

/-- The payment branch of execute. -/
def paymentStep (env : Env) (net : HttpRequest → JValue)
    (companyId resource operation : String) (i : Nat) (prev : Option JValue) :
    StepResult :=
  if operation = "create" then
    let body0 : List (String × JValue) :=
      [("CustomerRef", .obj [("value", env.param "CustomerRef" i)]),
       ("TotalAmt", env.param "TotalAmt" i)]
    let body := populateFields body0 (asObj (env.param "additionalFields" i)) resource
    let req : HttpRequest :=
      ⟨"POST", "/v3/company/" ++ companyId ++ "/" ++ resource, [], body⟩
    .ok (jgetOpt (net req) (capitalCase resource)) [req]
  else if operation = "delete" then
    let st := getSyncToken env net i companyId resource
    let qs : List (String × JValue) := [("operation", .str "delete")]
    let body : List (String × JValue) :=
      [("Id", env.param "paymentId" i), ("SyncToken", st.2)]
    let req : HttpRequest :=
      ⟨"POST", "/v3/company/" ++ companyId ++ "/" ++ resource, qs, body⟩
    .ok (jgetOpt (net req) (capitalCase resource)) [st.1, req]
  else if operation = "get" then
    let paymentId := env.param "paymentId" i
    let download := truthy (env.param "download" i)
    if download then
      .binary i resource paymentId []
    else
      let req : HttpRequest :=
        ⟨"GET", "/v3/company/" ++ companyId ++ "/" ++ resource ++ "/" ++
          jstr paymentId, [], []⟩
      .ok (jgetOpt (net req) (capitalCase resource)) [req]
  else if operation = "getAll" then
    let r := handleListing net i ("/v3/company/" ++ companyId ++ "/query") resource
    .ok (some r.2) [r.1]
  else if operation = "send" then
    let qs : List (String × JValue) := [("sendTo", env.param "email" i)]
    let req : HttpRequest :=
      ⟨"POST", "/v3/company/" ++ companyId ++ "/" ++ resource ++ "/" ++
        jstr (env.param "paymentId" i) ++ "/send", qs, []⟩
    .ok (jgetOpt (net req) (capitalCase resource)) [req]
  else if operation = "update" then
    let rt := getRefAndSyncToken env net i companyId resource "CustomerRef"
    let body0 : List (String × JValue) :=
      [("Id", env.param "paymentId" i), ("SyncToken", rt.2.syncToken),
       ("sparse", .bool true),
       ("CustomerRef", .obj [("name", rt.2.refName), ("value", rt.2.refValue)])]
    let updateFields := env.param "updateFields" i
    if jIsEmpty updateFields then
      .thrown ("Please enter at least one field to update for the " ++ resource ++ ".") [rt.1]
    else
      let body := populateFields body0 (asObj updateFields) resource
      let req : HttpRequest :=
        ⟨"POST", "/v3/company/" ++ companyId ++ "/" ++ resource, [], body⟩
      .ok (jgetOpt (net req) (capitalCase resource)) [rt.1, req]
  else if operation = "void" then
    let st := getSyncToken env net i companyId resource
    let qs : List (String × JValue) :=
      [("Id", env.param "paymentId" i), ("SyncToken", st.2),
       ("operation", .str "void")]
    let req : HttpRequest :=
      ⟨"POST", "/v3/company/" ++ companyId ++ "/" ++ resource, qs, []⟩
    .ok (jgetOpt (net req) (capitalCase resource)) [st.1, req]
  else .ok prev []

/-- The vendor branch of execute. -/
def vendorStep (env : Env) (net : HttpRequest → JValue)
    (companyId resource operation : String) (i : Nat) (prev : Option JValue) :
    StepResult :=
  if operation = "create" then
    let body0 : List (String × JValue) :=
      [("DisplayName", env.param "displayName" i)]
    let body := populateFields body0 (asObj (env.param "additionalFields" i)) resource
    let req : HttpRequest :=
      ⟨"POST", "/v3/company/" ++ companyId ++ "/" ++ resource, [], body⟩
    .ok (jgetOpt (net req) (capitalCase resource)) [req]
  else if operation = "get" then
    let req : HttpRequest :=
      ⟨"GET", "/v3/company/" ++ companyId ++ "/" ++ resource ++ "/" ++
        jstr (env.param "vendorId" i), [], []⟩
    .ok (jgetOpt (net req) (capitalCase resource)) [req]
  else if operation = "getAll" then
    let r := handleListing net i ("/v3/company/" ++ companyId ++ "/query") resource
    .ok (some r.2) [r.1]
  else if operation = "update" then
    let st := getSyncToken env net i companyId resource
    let body0 : List (String × JValue) :=
      [("Id", env.param "vendorId" i), ("SyncToken", st.2),
       ("sparse", .bool true)]
    let updateFields := env.param "updateFields" i
    if jIsEmpty updateFields then
      .thrown ("Please enter at least one field to update for the " ++ resource ++ ".") [st.1]
    else
      let body := populateFields body0 (asObj updateFields) resource
      let req : HttpRequest :=
        ⟨"POST", "/v3/company/" ++ companyId ++ "/" ++ resource, [], body⟩
      .ok (jgetOpt (net req) (capitalCase resource)) [st.1, req]
  else .ok prev []

/-- One iteration of the per-item loop of execute: the resource if-chain. -/
def stepItem (env : Env) (net : HttpRequest → JValue)
    (companyId resource operation : String) (i : Nat) (prev : Option JValue) :
    StepResult :=
  if resource = "bill" then billStep env net companyId resource operation i prev
  else if resource = "customer" then customerStep env net companyId resource operation i prev
  else if resource = "employee" then employeeStep env net companyId resource operation i prev
  else if resource = "estimate" then estimateStep env net companyId resource operation i prev
  else if resource = "invoice" then invoiceStep env net companyId resource operation i prev
  else if resource = "item" then itemStep env net companyId resource operation i prev
  else if resource = "payment" then paymentStep env net companyId resource operation i prev
  else if resource = "vendor" then vendorStep env net companyId resource operation i prev
  else .ok prev []

/-- The push at the bottom of the loop: an array response is spread onto
returnData, anything else (including undefined) is pushed as one entry. -/
def pushResponse (returnData : List (Option JValue)) (r : Option JValue) :
    List (Option JValue) :=
  match r with
  | some (.arr vs) => returnData ++ vs.map some
  | some v => returnData ++ [some v]
  | none => returnData ++ [none]

/-- Result of a whole run: the accumulated returnData handed to the host
wrapper, a binary early return (item index, resource, entity id), or a
thrown Error aborting the run. -/
inductive ExecResult where
  | ok : List (Option JValue) → ExecResult
  | binary : Nat → String → JValue → ExecResult
  | error : String → ExecResult

/-- The per-item loop of execute, threading responseData (which persists
across iterations), returnData and the request trace. -/
def execLoop (env : Env) (net : HttpRequest → JValue)
    (companyId resource operation : String) :
    Nat → Nat → Option JValue → List (Option JValue) → List HttpRequest →
    ExecResult × List HttpRequest
  | 0, _, _, returnData, trace => (.ok returnData, trace)
  | rem + 1, i, prev, returnData, trace =>
    match stepItem env net companyId resource operation i prev with
    | .thrown msg reqs => (.error msg, trace ++ reqs)
    | .binary j r v reqs => (.binary j r v, trace ++ reqs)
    | .ok resp reqs =>
      execLoop env net companyId resource operation rem (i + 1) resp
        (pushResponse returnData resp) (trace ++ reqs)

/-- The execute method: reads the resource and operation tags once at item
index 0, then runs the per-item loop over the given number of input items.
Returns the run result and the ordered trace of outbound HTTP requests. -/
def execute (env : Env) (net : HttpRequest → JValue) (companyId : String)
    (numItems : Nat) : ExecResult × List HttpRequest :=
  execLoop env net companyId (asStr (env.param "resource" 0))
    (asStr (env.param "operation" 0)) numItems 0 none [] []

/-- The resources whose update operation is wired in execute. -/
def updatableResources : List String :=
  ["bill", "customer", "employee", "estimate", "invoice", "payment", "vendor"]

/-- Every (resource, operation) pair wired to a handler in execute. -/
def supportedPairs : List (String × String) :=
  [("bill", "create"), ("bill", "get"), ("bill", "getAll"), ("bill", "update"),
   ("customer", "create"), ("customer", "get"), ("customer", "getAll"), ("customer", "update"),
   ("employee", "create"), ("employee", "get"), ("employee", "getAll"), ("employee", "update"),
   ("estimate", "create"), ("estimate", "get"), ("estimate", "getAll"), ("estimate", "update"),
   ("invoice", "create"), ("invoice", "delete"), ("invoice", "get"), ("invoice", "getAll"),
   ("invoice", "send"), ("invoice", "update"), ("invoice", "void"),
   ("item", "get"), ("item", "getAll"),
   ("payment", "create"), ("payment", "delete"), ("payment", "get"), ("payment", "getAll"),
   ("payment", "send"), ("payment", "update"), ("payment", "void"),
   ("vendor", "create"), ("vendor", "get"), ("vendor", "getAll"), ("vendor", "update")]

/-- The (resource, operation) pairs that mutate an entity and therefore echo
a SyncToken: update, delete and void handlers. -/
def mutationPairs : List (String × String) :=
  [("bill", "update"), ("customer", "update"), ("employee", "update"),
   ("estimate", "update"), ("invoice", "update"), ("invoice", "delete"),
   ("invoice", "void"), ("payment", "update"), ("payment", "delete"),
   ("payment", "void"), ("vendor", "update")]

/-- The update resources that also carry a denormalized reference, paired
with the reference key the update body embeds. -/
def refUpdatePairs : List (String × String) :=
  [("bill", "VendorRef"), ("estimate", "CustomerRef"),
   ("invoice", "CustomerRef"), ("payment", "CustomerRef")]

/-- Where a mutation echoes its SyncToken: void sends it in the query
string, update and delete in the body. -/
def syncTokenOf (operation : String) (q : HttpRequest) : Option JValue :=
  if operation = "void" then List.lookup "SyncToken" q.qs
  else List.lookup "SyncToken" q.body

/-- Concatenation of per-item request segments, starting at an item index. -/
def segConcat (seg : Nat → List HttpRequest) : Nat → Nat → List HttpRequest
  | _, 0 => []
  | i0, rem + 1 => seg i0 ++ segConcat seg (i0 + 1) rem

/-- A network oracle answering every request with an empty object. -/
def netEmptyObj : HttpRequest → JValue := fun _ => .obj []

/-- Environment for the C1 scenario: invoice update on id 55 with an empty
updateFields mapping. -/
def envC1 : Env := ⟨fun p _ =>
  if p = "resource" then .str "invoice"
  else if p = "operation" then .str "update"
  else if p = "invoiceId" then .str "55"
  else if p = "updateFields" then .obj []
  else .null⟩

/-- Oracle for the C1 scenario: the entity read answers with an envelope
holding a SyncToken and a customer reference. -/
def netC1 : HttpRequest → JValue := fun req =>
  if req.method = "GET" then
    .obj [("Invoice", .obj [("SyncToken", .str "3"),
      ("CustomerRef", .obj [("name", .str "Acme"), ("value", .str "21")])])]
  else .obj []

/-- An account-based expense line without an accountId. -/
def lineNoAccount : JValue :=
  .obj [("DetailType", .str "AccountBasedExpenseLineDetail"),
        ("Amount", .num 100), ("Description", .str "office")]

/-- The same line with accountId 42. -/
def lineWithAccount : JValue :=
  .obj [("DetailType", .str "AccountBasedExpenseLineDetail"),
        ("Amount", .num 100), ("Description", .str "office"),
        ("accountId", .str "42")]

/-- Environment for the C2 counterexample: invoice create whose single line
is account-based and has no accountId. -/
def envC2x : Env := ⟨fun p _ =>
  if p = "resource" then .str "invoice"
  else if p = "operation" then .str "create"
  else if p = "Line" then .arr [lineNoAccount]
  else if p = "CustomerRef" then .str "7"
  else if p = "additionalFields" then .obj []
  else .null⟩

/-- Environment for the C2 amended claim, missing-account case: bill create
whose single line is account-based and has no accountId. -/
def envC2a : Env := ⟨fun p _ =>
  if p = "resource" then .str "bill"
  else if p = "operation" then .str "create"
  else if p = "Line" then .arr [lineNoAccount]
  else if p = "VendorRef" then .str "7"
  else if p = "additionalFields" then .obj []
  else .null⟩

/-- Environment for the C2 amended claim, valid case: the same bill create
with accountId 42 on the line. -/
def envC2b : Env := ⟨fun p _ =>
  if p = "resource" then .str "bill"
  else if p = "operation" then .str "create"
  else if p = "Line" then .arr [lineWithAccount]
  else if p = "VendorRef" then .str "7"
  else if p = "additionalFields" then .obj []
  else .null⟩

/-- Environment for the C3 counterexample: the tags at item index 0 select
item get, while item index 1 carries different tags (customer get) that the
dispatcher never reads. -/
def envC3 : Env := ⟨fun p i =>
  if p = "resource" then (if i = 0 then .str "item" else .str "customer")
  else if p = "operation" then .str "get"
  else if p = "itemId" then (if i = 0 then .str "A" else .str "B")
  else if p = "customerId" then .str "C"
  else .null⟩

/-- Environment for the C4 counterexample: the unsupported pair
item create. -/
def envC4 : Env := ⟨fun p _ =>
  if p = "resource" then .str "item"
  else if p = "operation" then .str "create"
  else .null⟩

/-- Environment for the C5 scenario: payment void on id 9. -/
def envC5 : Env := ⟨fun p _ =>
  if p = "resource" then .str "payment"
  else if p = "operation" then .str "void"
  else if p = "paymentId" then .str "9"
  else .null⟩

/-- Oracle for the C5 scenario: the prior entity read resolves SyncToken 3. -/
def netC5 : HttpRequest → JValue := fun req =>
  if req.method = "GET" then .obj [("Payment", .obj [("SyncToken", .str "3")])]
  else .obj []

/-- Environment for the C6 witness, empty-lines case: bill create with an
empty Line sequence. -/
def envC6a : Env := ⟨fun p _ =>
  if p = "resource" then .str "bill"
  else if p = "operation" then .str "create"
  else if p = "Line" then .arr []
  else .null⟩

/-- Environment for the C6 witness, missing-fields case: bill create whose
line lacks Amount and Description. -/
def envC6b : Env := ⟨fun p _ =>
  if p = "resource" then .str "bill"
  else if p = "operation" then .str "create"
  else if p = "Line" then .arr [.obj [("DetailType", .str "SalesItemLineDetail")]]
  else .null⟩

/-- Environment for the C7 witness: customer update with one update field. -/
def envC7 : Env := ⟨fun p _ =>
  if p = "resource" then .str "customer"
  else if p = "operation" then .str "update"
  else if p = "customerId" then .str "12"
  else if p = "updateFields" then .obj [("DisplayName", .str "New Name")]
  else .null⟩

/-- Oracle for the C7 witness: the entity read resolves SyncToken 5. -/
def netC7 : HttpRequest → JValue := fun req =>
  if req.method = "GET" then .obj [("Customer", .obj [("SyncToken", .str "5")])]
  else .obj []

/-- Environment for the C8 witness: invoice void over two items. -/
def envC8 : Env := ⟨fun p i =>
  if p = "resource" then .str "invoice"
  else if p = "operation" then .str "void"
  else if p = "invoiceId" then (if i = 0 then .str "7" else .str "8")
  else if p = "updateFields" then .obj [("DocNumber", .str "1")]
  else .null⟩

/-- Oracle for the C8 witness: entity reads resolve a token depending on the
entity id in the endpoint. -/
def netC8 : HttpRequest → JValue := fun req =>
  if req.method = "GET" then
    if req.endpoint = "/v3/company/123/invoice/7" then
      .obj [("Invoice", .obj [("SyncToken", .str "3")])]
    else .obj [("Invoice", .obj [("SyncToken", .str "4")])]
  else .obj []

/-- Environment for the C9 witness: invoice update on id 55. -/
def envC9 : Env := ⟨fun p _ =>
  if p = "resource" then .str "invoice"
  else if p = "operation" then .str "update"
  else if p = "invoiceId" then .str "55"
  else if p = "updateFields" then .obj [("DocNumber", .str "9")]
  else .null⟩

/-- Oracle for the C9 witness: the single entity read resolves both the
SyncToken and the full customer reference. -/
def netC9 : HttpRequest → JValue := fun req =>
  if req.method = "GET" then
    .obj [("Invoice", .obj [("SyncToken", .str "3"),
      ("CustomerRef", .obj [("name", .str "Acme"), ("value", .str "21")])])]
  else .obj []

/-- Environment for the C10 witness: invoice get over three items, with the
download flag set on item index 1 only. -/
def envC10 : Env := ⟨fun p i =>
  if p = "resource" then .str "invoice"
  else if p = "operation" then .str "get"
  else if p = "invoiceId" then (if i = 0 then .str "A" else .str "B")
  else if p = "download" then (if i = 1 then .bool true else .bool false)
  else .null⟩

/-- An environment equal to the given one except that the resource and
operation tags at item indices other than 0 are replaced by arbitrary
values: used to state that the dispatcher reads the tags only at index 0. -/
def overrideTags (env : Env) (g : String → Nat → JValue) : Env :=
  ⟨fun p i =>
    if (p = "resource" ∨ p = "operation") ∧ 1 ≤ i then g p i
    else env.param p i⟩

theorem lookup_cons_self (a : String) (b : JValue) (l : List (String × JValue)) :
    List.lookup a ((a, b) :: l) = some b := by
  simp [List.lookup]

theorem lookup_cons_ne (a k : String) (b : JValue) (l : List (String × JValue))
    (h : k ≠ a) : List.lookup k ((a, b) :: l) = List.lookup k l := by
  simp [List.lookup, beq_eq_false_iff_ne.mpr h]

theorem lookup_map_replace (o : List (String × JValue)) (k k' : String)
    (v : JValue) (h : k ≠ k') :
    List.lookup k (o.map (fun kv => if kv.1 = k' then (k', v) else kv)) =
      List.lookup k o := by
  induction o with
  | nil => rfl
  | cons kv rest ih =>
    obtain ⟨a, b⟩ := kv
    by_cases hk : a = k'
    · subst hk
      rw [List.map_cons, if_pos rfl, lookup_cons_ne _ _ _ _ h,
        lookup_cons_ne _ _ _ _ h, ih]
    · rw [List.map_cons, if_neg hk]
      by_cases hka : k = a
      · subst hka; rw [lookup_cons_self, lookup_cons_self]
      · rw [lookup_cons_ne _ _ _ _ hka, lookup_cons_ne _ _ _ _ hka, ih]

theorem lookup_append_single (o : List (String × JValue)) (k k' : String)
    (v : JValue) (h : k ≠ k') :
    List.lookup k (o ++ [(k', v)]) = List.lookup k o := by
  induction o with
  | nil => simpa using lookup_cons_ne k' k v [] h
  | cons kv rest ih =>
    obtain ⟨a, b⟩ := kv
    by_cases hka : k = a
    · subst hka; simp only [List.cons_append, lookup_cons_self]
    · simp only [List.cons_append, lookup_cons_ne _ _ _ _ hka, ih]

theorem objSet_lookup_ne (o : List (String × JValue)) (k' : String)
    (v : JValue) (k : String) (h : k ≠ k') :
    List.lookup k (objSet o k' v) = List.lookup k o := by
  unfold objSet
  split
  · exact lookup_map_replace o k k' v h
  · exact lookup_append_single o k k' v h

theorem populateFields_lookup_ne (fields : List (String × JValue))
    (body : List (String × JValue)) (r k : String)
    (h : ∀ kv ∈ fields, kv.1 ≠ k) :
    List.lookup k (populateFields body fields r) = List.lookup k body := by
  induction fields generalizing body with
  | nil => rfl
  | cons kv rest ih =>
    have step : populateFields body (kv :: rest) r =
        populateFields (objSet body kv.1 kv.2) rest r := rfl
    rw [step, ih _ (fun x hx => h x (List.mem_cons_of_mem kv hx))]
    exact objSet_lookup_ne body kv.1 kv.2 k
      (fun he => h kv (List.mem_cons_self kv rest) he.symm)

theorem execLoop_seg (env : Env) (net : HttpRequest → JValue)
    (cid r op : String) (seg : Nat → List HttpRequest)
    (rsp : Nat → Option JValue)
    (hstep : ∀ i prev, stepItem env net cid r op i prev = .ok (rsp i) (seg i)) :
    ∀ rem i0 prev rd tr, ∃ out,
      execLoop env net cid r op rem i0 prev rd tr =
        (.ok out, tr ++ segConcat seg i0 rem) := by
  intro rem
  induction rem with
  | zero => intro i0 prev rd tr; exact ⟨rd, by simp [execLoop, segConcat]⟩
  | succ n ih =>
    intro i0 prev rd tr
    obtain ⟨out, ho⟩ := ih (i0 + 1) (rsp i0) (pushResponse rd (rsp i0)) (tr ++ seg i0)
    exact ⟨out, by simp [execLoop, hstep, segConcat, ho]⟩

theorem billStep_unsupported (env : Env) (net : HttpRequest → JValue)
    (cid r op : String) (i : Nat) (prev : Option JValue)
    (h1 : op ≠ "create") (h2 : op ≠ "get") (h3 : op ≠ "getAll")
    (h4 : op ≠ "update") :
    billStep env net cid r op i prev = .ok prev [] := by
  unfold billStep; rw [if_neg h1, if_neg h2, if_neg h3, if_neg h4]

theorem customerStep_unsupported (env : Env) (net : HttpRequest → JValue)
    (cid r op : String) (i : Nat) (prev : Option JValue)
    (h1 : op ≠ "create") (h2 : op ≠ "get") (h3 : op ≠ "getAll")
    (h4 : op ≠ "update") :
    customerStep env net cid r op i prev = .ok prev [] := by
  unfold customerStep; rw [if_neg h1, if_neg h2, if_neg h3, if_neg h4]

theorem employeeStep_unsupported (env : Env) (net : HttpRequest → JValue)
    (cid r op : String) (i : Nat) (prev : Option JValue)
    (h1 : op ≠ "create") (h2 : op ≠ "get") (h3 : op ≠ "getAll")
    (h4 : op ≠ "update") :
    employeeStep env net cid r op i prev = .ok prev [] := by
  unfold employeeStep; rw [if_neg h1, if_neg h2, if_neg h3, if_neg h4]

theorem estimateStep_unsupported (env : Env) (net : HttpRequest → JValue)
    (cid r op : String) (i : Nat) (prev : Option JValue)
    (h1 : op ≠ "create") (h2 : op ≠ "get") (h3 : op ≠ "getAll")
    (h4 : op ≠ "update") :
    estimateStep env net cid r op i prev = .ok prev [] := by
  unfold estimateStep; rw [if_neg h1, if_neg h2, if_neg h3, if_neg h4]

theorem invoiceStep_unsupported (env : Env) (net : HttpRequest → JValue)
    (cid r op : String) (i : Nat) (prev : Option JValue)
    (h1 : op ≠ "create") (h2 : op ≠ "delete") (h3 : op ≠ "get")
    (h4 : op ≠ "getAll") (h5 : op ≠ "send") (h6 : op ≠ "update")
    (h7 : op ≠ "void") :
    invoiceStep env net cid r op i prev = .ok prev [] := by
  unfold invoiceStep
  rw [if_neg h1, if_neg h2, if_neg h3, if_neg h4, if_neg h5, if_neg h6,
    if_neg h7]

theorem itemStep_unsupported (env : Env) (net : HttpRequest → JValue)
    (cid r op : String) (i : Nat) (prev : Option JValue)
    (h1 : op ≠ "get") (h2 : op ≠ "getAll") :
    itemStep env net cid r op i prev = .ok prev [] := by
  unfold itemStep; rw [if_neg h1, if_neg h2]

theorem paymentStep_unsupported (env : Env) (net : HttpRequest → JValue)
    (cid r op : String) (i : Nat) (prev : Option JValue)
    (h1 : op ≠ "create") (h2 : op ≠ "delete") (h3 : op ≠ "get")
    (h4 : op ≠ "getAll") (h5 : op ≠ "send") (h6 : op ≠ "update")
    (h7 : op ≠ "void") :
    paymentStep env net cid r op i prev = .ok prev [] := by
  unfold paymentStep
  rw [if_neg h1, if_neg h2, if_neg h3, if_neg h4, if_neg h5, if_neg h6,
    if_neg h7]

theorem vendorStep_unsupported (env : Env) (net : HttpRequest → JValue)
    (cid r op : String) (i : Nat) (prev : Option JValue)
    (h1 : op ≠ "create") (h2 : op ≠ "get") (h3 : op ≠ "getAll")
    (h4 : op ≠ "update") :
    vendorStep env net cid r op i prev = .ok prev [] := by
  unfold vendorStep; rw [if_neg h1, if_neg h2, if_neg h3, if_neg h4]

theorem stepItem_unsupported (env : Env) (net : HttpRequest → JValue)
    (cid : String) (i : Nat) (prev : Option JValue) (r op : String)
    (h : (r, op) ∉ supportedPairs) :
    stepItem env net cid r op i prev = .ok prev [] := by
  unfold stepItem
  by_cases hr1 : r = "bill"
  · subst hr1; rw [if_pos rfl]
    exact billStep_unsupported env net cid _ op i prev
      (fun he => h (by subst he; decide)) (fun he => h (by subst he; decide))
      (fun he => h (by subst he; decide)) (fun he => h (by subst he; decide))
  rw [if_neg hr1]
  by_cases hr2 : r = "customer"
  · subst hr2; rw [if_pos rfl]
    exact customerStep_unsupported env net cid _ op i prev
      (fun he => h (by subst he; decide)) (fun he => h (by subst he; decide))
      (fun he => h (by subst he; decide)) (fun he => h (by subst he; decide))
  rw [if_neg hr2]
  by_cases hr3 : r = "employee"
  · subst hr3; rw [if_pos rfl]
    exact employeeStep_unsupported env net cid _ op i prev
      (fun he => h (by subst he; decide)) (fun he => h (by subst he; decide))
      (fun he => h (by subst he; decide)) (fun he => h (by subst he; decide))
  rw [if_neg hr3]
  by_cases hr4 : r = "estimate"
  · subst hr4; rw [if_pos rfl]
    exact estimateStep_unsupported env net cid _ op i prev
      (fun he => h (by subst he; decide)) (fun he => h (by subst he; decide))
      (fun he => h (by subst he; decide)) (fun he => h (by subst he; decide))
  rw [if_neg hr4]
  by_cases hr5 : r = "invoice"
  · subst hr5; rw [if_pos rfl]
    exact invoiceStep_unsupported env net cid _ op i prev
      (fun he => h (by subst he; decide)) (fun he => h (by subst he; decide))
      (fun he => h (by subst he; decide)) (fun he => h (by subst he; decide))
      (fun he => h (by subst he; decide)) (fun he => h (by subst he; decide))
      (fun he => h (by subst he; decide))
  rw [if_neg hr5]
  by_cases hr6 : r = "item"
  · subst hr6; rw [if_pos rfl]
    exact itemStep_unsupported env net cid _ op i prev
      (fun he => h (by subst he; decide)) (fun he => h (by subst he; decide))
  rw [if_neg hr6]
  by_cases hr7 : r = "payment"
  · subst hr7; rw [if_pos rfl]
    exact paymentStep_unsupported env net cid _ op i prev
      (fun he => h (by subst he; decide)) (fun he => h (by subst he; decide))
      (fun he => h (by subst he; decide)) (fun he => h (by subst he; decide))
      (fun he => h (by subst he; decide)) (fun he => h (by subst he; decide))
      (fun he => h (by subst he; decide))
  rw [if_neg hr7]
  by_cases hr8 : r = "vendor"
  · subst hr8; rw [if_pos rfl]
    exact vendorStep_unsupported env net cid _ op i prev
      (fun he => h (by subst he; decide)) (fun he => h (by subst he; decide))
      (fun he => h (by subst he; decide)) (fun he => h (by subst he; decide))
  rw [if_neg hr8]

/-- C4 (amended): a (resource, operation) pair not wired to a handler
raises no error and issues no HTTP request, but an undefined entry IS
appended to the output sequence for every input item, and the run
continues to completion. -/
theorem C4_unsupported_appends_undefined (env : Env)
    (net : HttpRequest → JValue) (cid r op : String) (n : Nat)
    (h : (r, op) ∉ supportedPairs)
    (hres : env.param "resource" 0 = .str r)
    (hop : env.param "operation" 0 = .str op) :
    execute env net cid n = (.ok (List.replicate n none), []) := by
  have hstep : ∀ i prev, stepItem env net cid r op i prev = StepResult.ok prev [] :=
    fun i prev => stepItem_unsupported env net cid i prev r op h
  have hloop : ∀ rem i0 rd tr, execLoop env net cid r op rem i0 none rd tr =
      (.ok (rd ++ List.replicate rem none), tr) := by
    intro rem
    induction rem with
    | zero => intro i0 rd tr; simp [execLoop]
    | succ m ih =>
      intro i0 rd tr
      simp only [execLoop, hstep, pushResponse]
      rw [ih]
      simp [List.replicate_succ]
  unfold execute
  rw [hres, hop]
  simpa using hloop n 0 [] []

/-- C4 counterexample: for item create (an unwired pair) on one input item,
the run appends one undefined entry to the output sequence, refuting the
claim that nothing is appended for such an item. -/
theorem C4_counterexample_undefined_pushed :
    execute envC4 netEmptyObj "123" 1 = (.ok [none], []) ∧
      ([none] : List (Option JValue)) ≠ [] :=
  ⟨rfl, by simp⟩

/-- C4 witness: the amended theorem applied to item create over two items. -/
theorem C4_witness :
    (("item", "create") ∉ supportedPairs) ∧
      execute envC4 netEmptyObj "123" 2 = (.ok (List.replicate 2 none), []) :=
  ⟨by decide, C4_unsupported_appends_undefined envC4 netEmptyObj "123" "item"
    "create" 2 (by decide) rfl rfl⟩

/-- C5: payment void on id 9 with SyncToken 3 resolved by a prior read
issues exactly the prior GET read followed by a POST to
/v3/company/(companyId)/payment with query parameters Id = 9,
SyncToken = 3, operation = void, and an empty request body. -/
theorem C5_payment_void_request :
    (execute envC5 netC5 "123" 1).2 =
      [{ method := "GET", endpoint := "/v3/company/123/payment/9",
         qs := [], body := [] },
       { method := "POST", endpoint := "/v3/company/123/payment",
         qs := [("Id", .str "9"), ("SyncToken", .str "3"),
           ("operation", .str "void")],
         body := [] }] := rfl

/-- C1 (amended): for every updatable resource, an update with an empty
updateFields mapping fails with the validation Error whose message
references the resource, and no mutation POST is issued — but the failure
occurs only after the SyncToken/reference read: the trace holds exactly
that one GET read. -/
theorem C1_empty_update_fields (env : Env) (net : HttpRequest → JValue)
    (cid r : String) (hr : r ∈ updatableResources)
    (hres : env.param "resource" 0 = .str r)
    (hop : env.param "operation" 0 = .str "update")
    (huf : env.param "updateFields" 0 = .obj []) :
    execute env net cid 1 =
      (.error ("Please enter at least one field to update for the " ++ r ++ "."),
       [entityReadReq env cid r 0]) := by
  fin_cases hr <;>
    simp [execute, hres, hop, huf, asStr, execLoop, stepItem, billStep,
      customerStep, employeeStep, estimateStep, invoiceStep, paymentStep,
      vendorStep, getRefAndSyncToken, getSyncToken, jIsEmpty]

/-- C1 witness: the amended theorem applied to the invoice scenario on
id 55 with empty updateFields. -/
theorem C1_witness :
    ("invoice" ∈ updatableResources) ∧
      execute envC1 netC1 "123" 1 =
        (.error "Please enter at least one field to update for the invoice.",
         [entityReadReq envC1 "123" "invoice" 0]) :=
  ⟨by decide,
   C1_empty_update_fields envC1 netC1 "123" "invoice" (by decide) rfl rfl rfl⟩

/-- C1 counterexample: invoice update on id 55 with empty updateFields does
fail with the expected message, but one HTTP request — the GET entity read
for the SyncToken — has already been issued, refuting the clause that no
HTTP request, including the SyncToken read, is issued. -/
theorem C1_counterexample_read_before_error :
    (execute envC1 netC1 "123" 1).1 =
      .error "Please enter at least one field to update for the invoice." ∧
      (execute envC1 netC1 "123" 1).2 =
        [{ method := "GET", endpoint := "/v3/company/123/invoice/55",
           qs := [], body := [] }] ∧
      (execute envC1 netC1 "123" 1).2.length = 1 :=
  ⟨rfl, rfl, rfl⟩

/-- C6: for every create of bill, estimate or invoice, an empty line
sequence fails with the at-least-one-line Error, and a line sequence in
which some line misses its detail type, amount or description fails with
the per-line fields Error; both failures occur with an empty request
trace, i.e. before any network call and before line transformation. -/
theorem C6_create_line_validation (env : Env) (net : HttpRequest → JValue)
    (cid r : String) (hr : r ∈ ["bill", "estimate", "invoice"])
    (hres : env.param "resource" 0 = .str r)
    (hop : env.param "operation" 0 = .str "create") :
    (env.param "Line" 0 = .arr [] →
      execute env net cid 1 =
        (.error ("Please enter at least one line for the " ++ r ++ "."), [])) ∧
    (∀ ls, env.param "Line" 0 = .arr ls → ls.any lineMissingCore = true →
      execute env net cid 1 =
        (.error "Please enter detail type, amount and description for every line.",
         [])) := by
  fin_cases hr
  · refine ⟨fun hl => ?_, fun ls hl hany => ?_⟩
    · simp [execute, hres, hop, hl, asStr, asLines, execLoop, stepItem,
        billStep, estimateStep, invoiceStep]
    · cases ls with
      | nil => simp at hany
      | cons l rest =>
        simp [execute, hres, hop, hl, hany, asStr, asLines, execLoop,
          stepItem, billStep, estimateStep, invoiceStep]
  · refine ⟨fun hl => ?_, fun ls hl hany => ?_⟩
    · simp [execute, hres, hop, hl, asStr, asLines, execLoop, stepItem,
        billStep, estimateStep, invoiceStep]
    · cases ls with
      | nil => simp at hany
      | cons l rest =>
        simp [execute, hres, hop, hl, hany, asStr, asLines, execLoop,
          stepItem, billStep, estimateStep, invoiceStep]
  · refine ⟨fun hl => ?_, fun ls hl hany => ?_⟩
    · simp [execute, hres, hop, hl, asStr, asLines, execLoop, stepItem,
        billStep, estimateStep, invoiceStep]
    · cases ls with
      | nil => simp at hany
      | cons l rest =>
        simp [execute, hres, hop, hl, hany, asStr, asLines, execLoop,
          stepItem, billStep, estimateStep, invoiceStep]

/-- C6 witness: the theorem applied to a bill create with an empty line
sequence and to a bill create whose line misses amount and description. -/
theorem C6_witness :
    execute envC6a netEmptyObj "123" 1 =
      (.error "Please enter at least one line for the bill.", []) ∧
    execute envC6b netEmptyObj "123" 1 =
      (.error "Please enter detail type, amount and description for every line.",
       []) :=
  ⟨(C6_create_line_validation envC6a netEmptyObj "123" "bill" (by decide)
      rfl rfl).1 rfl,
   (C6_create_line_validation envC6b netEmptyObj "123" "bill" (by decide)
      rfl rfl).2 [.obj [("DetailType", .str "SalesItemLineDetail")]] rfl rfl⟩

/-- C2 counterexample: an invoice create whose single line has detail type
AccountBasedExpenseLineDetail and no account id does NOT fail with a
validation Error: the request is issued (one POST), the line passes
through unchanged, and the run completes — refuting the claim for the
estimate and invoice line-processing calls. -/
theorem C2_counterexample_invoice_account_line :
    execute envC2x netEmptyObj "123" 1 =
      (.ok [none],
       [{ method := "POST", endpoint := "/v3/company/123/invoice", qs := [],
          body := [("CustomerRef", .obj [("value", .str "7")]),
                   ("Line", .arr [lineNoAccount])] }]) := rfl

/-- C2 (amended): for the bill create line-processing call, a line of
detail type AccountBasedExpenseLineDetail with no account id fails with
the account-id validation Error before any network call, and the
equivalent line with an account id produces, in the issued request body,
a nested AccountBasedExpenseLineDetail.AccountRef.value equal to that id.
For estimate and invoice creates only SalesItemLineDetail lines are
checked, so the account-id clause does not apply there. -/
theorem C2_bill_account_line (env : Env) (net : HttpRequest → JValue)
    (cid : String) (l : JValue)
    (hres : env.param "resource" 0 = .str "bill")
    (hop : env.param "operation" 0 = .str "create")
    (hl : env.param "Line" 0 = .arr [l])
    (hdt : jgetOpt l "DetailType" = some (.str "AccountBasedExpenseLineDetail"))
    (ham : (jgetOpt l "Amount").isSome = true)
    (hde : (jgetOpt l "Description").isSome = true)
    (haf : env.param "additionalFields" 0 = .obj []) :
    (jgetOpt l "accountId" = none →
      execute env net cid 1 =
        (.error "Please enter an account ID for the associated line.", [])) ∧
    (∀ a, jgetOpt l "accountId" = some a →
      ∃ mq, (execute env net cid 1).2 = [mq] ∧ mq.method = "POST" ∧
        jget (jget (jget (jidx (jget (JValue.obj mq.body) "Line") 0)
          "AccountBasedExpenseLineDetail") "AccountRef") "value" = a) := by
  obtain ⟨av, hav⟩ := Option.isSome_iff_exists.mp ham
  obtain ⟨dv, hdv⟩ := Option.isSome_iff_exists.mp hde
  constructor
  · intro ha
    simp [execute, hres, hop, hl, ha, hdt, hav, hdv, asStr, asLines,
      execLoop, stepItem, billStep, lineMissingCore, lineRefErrorBill,
      lineDetailType]
  · intro a ha
    have htr : (execute env net cid 1).2 =
        [{ method := "POST", endpoint := "/v3/company/" ++ cid ++ "/" ++ "bill",
           qs := [],
           body := [("VendorRef", .obj [("value", env.param "VendorRef" 0)]),
             ("Line", .arr [.obj [("DetailType",
               .str "AccountBasedExpenseLineDetail"), ("Amount", av),
               ("Description", dv), ("AccountBasedExpenseLineDetail",
               .obj [("AccountRef", .obj [("value", a)])])]])] }] := by
      simp [execute, hres, hop, hl, ha, hdt, hav, hdv, haf, asStr, asLines,
        asObj, execLoop, stepItem, billStep, lineMissingCore,
        lineRefErrorBill, lineDetailType, processLines, transformLine,
        populateFields, objSet, lineBase, jget, List.lookup]
    refine ⟨_, htr, rfl, ?_⟩
    simp [jget, jgetOpt, jidx, List.lookup]

/-- C2 witness: the amended theorem applied to a bill create missing the
account id (fails) and to the same line with accountId 42 (nested
AccountRef value 42 in the request body). -/
theorem C2_witness :
    execute envC2a netEmptyObj "123" 1 =
      (.error "Please enter an account ID for the associated line.", []) ∧
    (∃ mq, (execute envC2b netEmptyObj "123" 1).2 = [mq] ∧ mq.method = "POST" ∧
      jget (jget (jget (jidx (jget (JValue.obj mq.body) "Line") 0)
        "AccountBasedExpenseLineDetail") "AccountRef") "value" = .str "42") :=
  ⟨(C2_bill_account_line envC2a netEmptyObj "123" lineNoAccount rfl rfl rfl
      rfl rfl rfl rfl).1 rfl,
   (C2_bill_account_line envC2b netEmptyObj "123" lineWithAccount rfl rfl rfl
      rfl rfl rfl rfl).2 (.str "42") rfl⟩

/-- C7: for every resource supporting update, the issued mutation is the
entity read followed by a POST whose body carries sparse = true together
with the Id and SyncToken identity fields, provided the update-fields
mapping (nonempty, or no request is sent at all) does not itself use the
reserved keys sparse, Id, SyncToken. -/
theorem C7_update_sparse_identity (env : Env) (net : HttpRequest → JValue)
    (cid r : String) (hr : r ∈ updatableResources)
    (hres : env.param "resource" 0 = .str r)
    (hop : env.param "operation" 0 = .str "update")
    (uf : List (String × JValue))
    (huf : env.param "updateFields" 0 = .obj uf) (hne : uf ≠ [])
    (hks : ∀ kv ∈ uf, kv.1 ≠ "sparse" ∧ kv.1 ≠ "Id" ∧ kv.1 ≠ "SyncToken") :
    ∃ mq, (execute env net cid 1).2 = [entityReadReq env cid r 0, mq] ∧
      mq.method = "POST" ∧
      List.lookup "sparse" mq.body = some (.bool true) ∧
      (List.lookup "Id" mq.body).isSome = true ∧
      List.lookup "SyncToken" mq.body =
        some (freshSyncToken env net cid r 0) := by
  have hie : uf.isEmpty = false := by
    cases uf with
    | nil => exact absurd rfl hne
    | cons a l => rfl
  fin_cases hr
  · have htr : (execute env net cid 1).2 =
        [entityReadReq env cid "bill" 0,
         { method := "POST", endpoint := "/v3/company/" ++ cid ++ "/" ++ "bill",
           qs := [],
           body := populateFields
             [("Id", env.param "billId" 0), ("SyncToken", freshSyncToken env net cid "bill" 0),
           ("sparse", JValue.bool true),
           ("VendorRef", JValue.obj [("name", jget (freshRef env net cid "bill" "VendorRef" 0) "name"),
             ("value", jget (freshRef env net cid "bill" "VendorRef" 0) "value")])]
             uf "bill" }] := by
      simp [execute, hres, hop, huf, hie, asStr, asObj, execLoop, stepItem,
        billStep, getRefAndSyncToken, getSyncToken, jIsEmpty]
    refine ⟨_, htr, rfl, ?_, ?_, ?_⟩
    · rw [populateFields_lookup_ne _ _ _ _ (fun kv hk => (hks kv hk).1)]
      simp [List.lookup]
    · rw [populateFields_lookup_ne _ _ _ _ (fun kv hk => (hks kv hk).2.1)]
      simp [List.lookup]
    · rw [populateFields_lookup_ne _ _ _ _ (fun kv hk => (hks kv hk).2.2)]
      simp [List.lookup]
  · have htr : (execute env net cid 1).2 =
        [entityReadReq env cid "customer" 0,
         { method := "POST", endpoint := "/v3/company/" ++ cid ++ "/" ++ "customer",
           qs := [],
           body := populateFields
             [("Id", env.param "customerId" 0), ("SyncToken", freshSyncToken env net cid "customer" 0),
           ("sparse", JValue.bool true)]
             uf "customer" }] := by
      simp [execute, hres, hop, huf, hie, asStr, asObj, execLoop, stepItem,
        customerStep, getRefAndSyncToken, getSyncToken, jIsEmpty]
    refine ⟨_, htr, rfl, ?_, ?_, ?_⟩
    · rw [populateFields_lookup_ne _ _ _ _ (fun kv hk => (hks kv hk).1)]
      simp [List.lookup]
    · rw [populateFields_lookup_ne _ _ _ _ (fun kv hk => (hks kv hk).2.1)]
      simp [List.lookup]
    · rw [populateFields_lookup_ne _ _ _ _ (fun kv hk => (hks kv hk).2.2)]
      simp [List.lookup]
  · have htr : (execute env net cid 1).2 =
        [entityReadReq env cid "employee" 0,
         { method := "POST", endpoint := "/v3/company/" ++ cid ++ "/" ++ "employee",
           qs := [],
           body := populateFields
             [("Id", env.param "employeeId" 0), ("SyncToken", freshSyncToken env net cid "employee" 0),
           ("sparse", JValue.bool true)]
             uf "employee" }] := by
      simp [execute, hres, hop, huf, hie, asStr, asObj, execLoop, stepItem,
        employeeStep, getRefAndSyncToken, getSyncToken, jIsEmpty]
    refine ⟨_, htr, rfl, ?_, ?_, ?_⟩
    · rw [populateFields_lookup_ne _ _ _ _ (fun kv hk => (hks kv hk).1)]
      simp [List.lookup]
    · rw [populateFields_lookup_ne _ _ _ _ (fun kv hk => (hks kv hk).2.1)]
      simp [List.lookup]
    · rw [populateFields_lookup_ne _ _ _ _ (fun kv hk => (hks kv hk).2.2)]
      simp [List.lookup]
  · have htr : (execute env net cid 1).2 =
        [entityReadReq env cid "estimate" 0,
         { method := "POST", endpoint := "/v3/company/" ++ cid ++ "/" ++ "estimate",
           qs := [],
           body := populateFields
             [("Id", env.param "estimateId" 0), ("SyncToken", freshSyncToken env net cid "estimate" 0),
           ("sparse", JValue.bool true),
           ("CustomerRef", JValue.obj [("name", jget (freshRef env net cid "estimate" "CustomerRef" 0) "name"),
             ("value", jget (freshRef env net cid "estimate" "CustomerRef" 0) "value")])]
             uf "estimate" }] := by
      simp [execute, hres, hop, huf, hie, asStr, asObj, execLoop, stepItem,
        estimateStep, getRefAndSyncToken, getSyncToken, jIsEmpty]
    refine ⟨_, htr, rfl, ?_, ?_, ?_⟩
    · rw [populateFields_lookup_ne _ _ _ _ (fun kv hk => (hks kv hk).1)]
      simp [List.lookup]
    · rw [populateFields_lookup_ne _ _ _ _ (fun kv hk => (hks kv hk).2.1)]
      simp [List.lookup]
    · rw [populateFields_lookup_ne _ _ _ _ (fun kv hk => (hks kv hk).2.2)]
      simp [List.lookup]
  · have htr : (execute env net cid 1).2 =
        [entityReadReq env cid "invoice" 0,
         { method := "POST", endpoint := "/v3/company/" ++ cid ++ "/" ++ "invoice",
           qs := [],
           body := populateFields
             [("Id", env.param "invoiceId" 0), ("SyncToken", freshSyncToken env net cid "invoice" 0),
           ("sparse", JValue.bool true),
           ("CustomerRef", JValue.obj [("name", jget (freshRef env net cid "invoice" "CustomerRef" 0) "name"),
             ("value", jget (freshRef env net cid "invoice" "CustomerRef" 0) "value")])]
             uf "invoice" }] := by
      simp [execute, hres, hop, huf, hie, asStr, asObj, execLoop, stepItem,
        invoiceStep, getRefAndSyncToken, getSyncToken, jIsEmpty]
    refine ⟨_, htr, rfl, ?_, ?_, ?_⟩
    · rw [populateFields_lookup_ne _ _ _ _ (fun kv hk => (hks kv hk).1)]
      simp [List.lookup]
    · rw [populateFields_lookup_ne _ _ _ _ (fun kv hk => (hks kv hk).2.1)]
      simp [List.lookup]
    · rw [populateFields_lookup_ne _ _ _ _ (fun kv hk => (hks kv hk).2.2)]
      simp [List.lookup]
  · have htr : (execute env net cid 1).2 =
        [entityReadReq env cid "payment" 0,
         { method := "POST", endpoint := "/v3/company/" ++ cid ++ "/" ++ "payment",
           qs := [],
           body := populateFields
             [("Id", env.param "paymentId" 0), ("SyncToken", freshSyncToken env net cid "payment" 0),
           ("sparse", JValue.bool true),
           ("CustomerRef", JValue.obj [("name", jget (freshRef env net cid "payment" "CustomerRef" 0) "name"),
             ("value", jget (freshRef env net cid "payment" "CustomerRef" 0) "value")])]
             uf "payment" }] := by
      simp [execute, hres, hop, huf, hie, asStr, asObj, execLoop, stepItem,
        paymentStep, getRefAndSyncToken, getSyncToken, jIsEmpty]
    refine ⟨_, htr, rfl, ?_, ?_, ?_⟩
    · rw [populateFields_lookup_ne _ _ _ _ (fun kv hk => (hks kv hk).1)]
      simp [List.lookup]
    · rw [populateFields_lookup_ne _ _ _ _ (fun kv hk => (hks kv hk).2.1)]
      simp [List.lookup]
    · rw [populateFields_lookup_ne _ _ _ _ (fun kv hk => (hks kv hk).2.2)]
      simp [List.lookup]
  · have htr : (execute env net cid 1).2 =
        [entityReadReq env cid "vendor" 0,
         { method := "POST", endpoint := "/v3/company/" ++ cid ++ "/" ++ "vendor",
           qs := [],
           body := populateFields
             [("Id", env.param "vendorId" 0), ("SyncToken", freshSyncToken env net cid "vendor" 0),
           ("sparse", JValue.bool true)]
             uf "vendor" }] := by
      simp [execute, hres, hop, huf, hie, asStr, asObj, execLoop, stepItem,
        vendorStep, getRefAndSyncToken, getSyncToken, jIsEmpty]
    refine ⟨_, htr, rfl, ?_, ?_, ?_⟩
    · rw [populateFields_lookup_ne _ _ _ _ (fun kv hk => (hks kv hk).1)]
      simp [List.lookup]
    · rw [populateFields_lookup_ne _ _ _ _ (fun kv hk => (hks kv hk).2.1)]
      simp [List.lookup]
    · rw [populateFields_lookup_ne _ _ _ _ (fun kv hk => (hks kv hk).2.2)]
      simp [List.lookup]

/-- C7 witness: the theorem applied to a customer update with one update
field; the POST body carries sparse, Id and the freshly read SyncToken. -/
theorem C7_witness :
    ("customer" ∈ updatableResources) ∧
      ([("DisplayName", JValue.str "New Name")] ≠
        ([] : List (String × JValue))) ∧
      ∃ mq, (execute envC7 netC7 "123" 1).2 =
          [entityReadReq envC7 "123" "customer" 0, mq] ∧
        mq.method = "POST" ∧
        List.lookup "sparse" mq.body = some (.bool true) ∧
        (List.lookup "Id" mq.body).isSome = true ∧
        List.lookup "SyncToken" mq.body =
          some (freshSyncToken envC7 netC7 "123" "customer" 0) :=
  ⟨by decide, by simp,
   C7_update_sparse_identity envC7 netC7 "123" "customer" (by decide) rfl rfl
     [("DisplayName", JValue.str "New Name")] rfl (by simp) (by decide)⟩

/-- C10: for estimate, invoice and payment get with the download flag set
at input item k (and unset before), execute returns the binary result for
item k immediately: items after k are never processed (the trace stops at
item k, holding only the per-item GET reads of the earlier items), and the
records accumulated for items before k are discarded — the result carries
no output list. -/
theorem C10_download_short_circuit (env : Env) (net : HttpRequest → JValue)
    (cid r : String) (n k : Nat) (hk : k < n)
    (hr : r ∈ ["estimate", "invoice", "payment"])
    (hres : env.param "resource" 0 = .str r)
    (hop : env.param "operation" 0 = .str "get")
    (hdl : truthy (env.param "download" k) = true)
    (hprev : ∀ i, i < k → truthy (env.param "download" i) = false) :
    execute env net cid n =
      (.binary k r (env.param (r ++ "Id") k),
       segConcat (fun i => [entityReadReq env cid r i]) 0 k) := by
  fin_cases hr
  · have hloop : ∀ d i0 prev rd tr rem, i0 + d = k → d < rem →
        execLoop env net cid "estimate" "get" rem i0 prev rd tr =
          (.binary k "estimate" (env.param "estimateId" k),
           tr ++ segConcat (fun i => [entityReadReq env cid "estimate" i]) i0 d) := by
      intro d
      induction d with
      | zero =>
        intro i0 prev rd tr rem h0 hrem
        obtain ⟨m, rfl⟩ : ∃ m, rem = m + 1 := ⟨rem - 1, by omega⟩
        have hk0 : i0 = k := by omega
        subst hk0
        simp [execLoop, stepItem, estimateStep, hdl, segConcat]
      | succ m ih =>
        intro i0 prev rd tr rem h0 hrem
        obtain ⟨mm, rfl⟩ : ∃ mm, rem = mm + 1 := ⟨rem - 1, by omega⟩
        have hlt : i0 < k := by omega
        have hd : truthy (env.param "download" i0) = false := hprev i0 hlt
        have hih := ih (i0 + 1) (jgetOpt
            (net { method := "GET",
                   endpoint := "/v3/company/" ++ cid ++ "/" ++ "estimate" ++ "/" ++
                     jstr (env.param "estimateId" i0), qs := [], body := [] })
            (capitalCase "estimate"))
          (pushResponse rd (jgetOpt
            (net { method := "GET",
                   endpoint := "/v3/company/" ++ cid ++ "/" ++ "estimate" ++ "/" ++
                     jstr (env.param "estimateId" i0), qs := [], body := [] })
            (capitalCase "estimate")))
          (tr ++ [{ method := "GET",
                    endpoint := "/v3/company/" ++ cid ++ "/" ++ "estimate" ++ "/" ++
                      jstr (env.param "estimateId" i0), qs := [], body := [] }])
          mm (by omega) (by omega)
        simp only [execLoop, stepItem, estimateStep, hd, if_false, Bool.false_eq_true,
          if_pos rfl] at hih ⊢
        simp [hd, hih, segConcat, entityReadReq]
    unfold execute
    rw [hres, hop]
    simpa using hloop k 0 none [] [] n (by omega) hk
  · have hloop : ∀ d i0 prev rd tr rem, i0 + d = k → d < rem →
        execLoop env net cid "invoice" "get" rem i0 prev rd tr =
          (.binary k "invoice" (env.param "invoiceId" k),
           tr ++ segConcat (fun i => [entityReadReq env cid "invoice" i]) i0 d) := by
      intro d
      induction d with
      | zero =>
        intro i0 prev rd tr rem h0 hrem
        obtain ⟨m, rfl⟩ : ∃ m, rem = m + 1 := ⟨rem - 1, by omega⟩
        have hk0 : i0 = k := by omega
        subst hk0
        simp [execLoop, stepItem, invoiceStep, hdl, segConcat]
      | succ m ih =>
        intro i0 prev rd tr rem h0 hrem
        obtain ⟨mm, rfl⟩ : ∃ mm, rem = mm + 1 := ⟨rem - 1, by omega⟩
        have hlt : i0 < k := by omega
        have hd : truthy (env.param "download" i0) = false := hprev i0 hlt
        have hih := ih (i0 + 1) (jgetOpt
            (net { method := "GET",
                   endpoint := "/v3/company/" ++ cid ++ "/" ++ "invoice" ++ "/" ++
                     jstr (env.param "invoiceId" i0), qs := [], body := [] })
            (capitalCase "invoice"))
          (pushResponse rd (jgetOpt
            (net { method := "GET",
                   endpoint := "/v3/company/" ++ cid ++ "/" ++ "invoice" ++ "/" ++
                     jstr (env.param "invoiceId" i0), qs := [], body := [] })
            (capitalCase "invoice")))
          (tr ++ [{ method := "GET",
                    endpoint := "/v3/company/" ++ cid ++ "/" ++ "invoice" ++ "/" ++
                      jstr (env.param "invoiceId" i0), qs := [], body := [] }])
          mm (by omega) (by omega)
        simp only [execLoop, stepItem, invoiceStep, hd, if_false, Bool.false_eq_true,
          if_pos rfl] at hih ⊢
        simp [hd, hih, segConcat, entityReadReq]
    unfold execute
    rw [hres, hop]
    simpa using hloop k 0 none [] [] n (by omega) hk
  · have hloop : ∀ d i0 prev rd tr rem, i0 + d = k → d < rem →
        execLoop env net cid "payment" "get" rem i0 prev rd tr =
          (.binary k "payment" (env.param "paymentId" k),
           tr ++ segConcat (fun i => [entityReadReq env cid "payment" i]) i0 d) := by
      intro d
      induction d with
      | zero =>
        intro i0 prev rd tr rem h0 hrem
        obtain ⟨m, rfl⟩ : ∃ m, rem = m + 1 := ⟨rem - 1, by omega⟩
        have hk0 : i0 = k := by omega
        subst hk0
        simp [execLoop, stepItem, paymentStep, hdl, segConcat]
      | succ m ih =>
        intro i0 prev rd tr rem h0 hrem
        obtain ⟨mm, rfl⟩ : ∃ mm, rem = mm + 1 := ⟨rem - 1, by omega⟩
        have hlt : i0 < k := by omega
        have hd : truthy (env.param "download" i0) = false := hprev i0 hlt
        have hih := ih (i0 + 1) (jgetOpt
            (net { method := "GET",
                   endpoint := "/v3/company/" ++ cid ++ "/" ++ "payment" ++ "/" ++
                     jstr (env.param "paymentId" i0), qs := [], body := [] })
            (capitalCase "payment"))
          (pushResponse rd (jgetOpt
            (net { method := "GET",
                   endpoint := "/v3/company/" ++ cid ++ "/" ++ "payment" ++ "/" ++
                     jstr (env.param "paymentId" i0), qs := [], body := [] })
            (capitalCase "payment")))
          (tr ++ [{ method := "GET",
                    endpoint := "/v3/company/" ++ cid ++ "/" ++ "payment" ++ "/" ++
                      jstr (env.param "paymentId" i0), qs := [], body := [] }])
          mm (by omega) (by omega)
        simp only [execLoop, stepItem, paymentStep, hd, if_false, Bool.false_eq_true,
          if_pos rfl] at hih ⊢
        simp [hd, hih, segConcat, entityReadReq]
    unfold execute
    rw [hres, hop]
    simpa using hloop k 0 none [] [] n (by omega) hk

/-- C10 witness: invoice get over three items with the download flag set on
item 1; the run returns the binary result for item 1, the trace stops
after item 1, and the record of item 0 is discarded. -/
theorem C10_witness :
    (1 : Nat) < 3 ∧ truthy (envC10.param "download" 1) = true ∧
      execute envC10 netEmptyObj "123" 3 =
        (.binary 1 "invoice" (envC10.param ("invoice" ++ "Id") 1),
         segConcat (fun i => [entityReadReq envC10 "123" "invoice" i]) 0 1) :=
  ⟨by omega, rfl,
   C10_download_short_circuit envC10 netEmptyObj "123" "invoice" 3 1 (by omega)
     (by decide) rfl rfl rfl
     (by intro i hi; have h0 : i = 0 := Nat.lt_one_iff.mp hi; subst h0; rfl)⟩

/-- C9: for every update of bill, estimate, invoice and payment, a single
entity read (the only GET of the run) yields both the SyncToken and the
denormalized reference, and the update body embeds the full reference
object — display name and id — under the resource reference key, together
with the token from that same read. -/
theorem C9_update_ref_and_token (env : Env) (net : HttpRequest → JValue)
    (cid r rk : String) (hp : (r, rk) ∈ refUpdatePairs)
    (hres : env.param "resource" 0 = .str r)
    (hop : env.param "operation" 0 = .str "update")
    (uf : List (String × JValue))
    (huf : env.param "updateFields" 0 = .obj uf) (hne : uf ≠ [])
    (hks : ∀ kv ∈ uf, kv.1 ≠ rk ∧ kv.1 ≠ "SyncToken") :
    ∃ mq, (execute env net cid 1).2 = [entityReadReq env cid r 0, mq] ∧
      ((execute env net cid 1).2.filter (fun q => q.method == "GET")).length
        = 1 ∧
      List.lookup rk mq.body =
        some (.obj [("name", jget (freshRef env net cid r rk 0) "name"),
                    ("value", jget (freshRef env net cid r rk 0) "value")]) ∧
      List.lookup "SyncToken" mq.body =
        some (freshSyncToken env net cid r 0) := by
  have hie : uf.isEmpty = false := by
    cases uf with
    | nil => exact absurd rfl hne
    | cons a l => rfl
  simp only [refUpdatePairs, List.mem_cons, List.not_mem_nil, or_false,
    Prod.mk.injEq] at hp
  rcases hp with hd1 | hd2 | hd3 | hd4
  · obtain ⟨rfl, rfl⟩ := hd1
    have htr : (execute env net cid 1).2 =
        [entityReadReq env cid "bill" 0,
         { method := "POST", endpoint := "/v3/company/" ++ cid ++ "/" ++ "bill",
           qs := [],
           body := populateFields
             [("Id", env.param "billId" 0),
              ("SyncToken", freshSyncToken env net cid "bill" 0),
              ("sparse", JValue.bool true),
              ("VendorRef", JValue.obj
                [("name", jget (freshRef env net cid "bill" "VendorRef" 0) "name"),
                 ("value", jget (freshRef env net cid "bill" "VendorRef" 0) "value")])]
             uf "bill" }] := by
      simp [execute, hres, hop, huf, hie, asStr, asObj, execLoop, stepItem,
        billStep, getRefAndSyncToken, jIsEmpty]
    refine ⟨_, htr, ?_, ?_, ?_⟩
    · rw [htr]; simp [entityReadReq]
    · rw [populateFields_lookup_ne _ _ _ _ (fun kv hk => (hks kv hk).1)]
      simp [List.lookup]
    · rw [populateFields_lookup_ne _ _ _ _ (fun kv hk => (hks kv hk).2)]
      simp [List.lookup]
  · obtain ⟨rfl, rfl⟩ := hd2
    have htr : (execute env net cid 1).2 =
        [entityReadReq env cid "estimate" 0,
         { method := "POST", endpoint := "/v3/company/" ++ cid ++ "/" ++ "estimate",
           qs := [],
           body := populateFields
             [("Id", env.param "estimateId" 0),
              ("SyncToken", freshSyncToken env net cid "estimate" 0),
              ("sparse", JValue.bool true),
              ("CustomerRef", JValue.obj
                [("name", jget (freshRef env net cid "estimate" "CustomerRef" 0) "name"),
                 ("value", jget (freshRef env net cid "estimate" "CustomerRef" 0) "value")])]
             uf "estimate" }] := by
      simp [execute, hres, hop, huf, hie, asStr, asObj, execLoop, stepItem,
        estimateStep, getRefAndSyncToken, jIsEmpty]
    refine ⟨_, htr, ?_, ?_, ?_⟩
    · rw [htr]; simp [entityReadReq]
    · rw [populateFields_lookup_ne _ _ _ _ (fun kv hk => (hks kv hk).1)]
      simp [List.lookup]
    · rw [populateFields_lookup_ne _ _ _ _ (fun kv hk => (hks kv hk).2)]
      simp [List.lookup]
  · obtain ⟨rfl, rfl⟩ := hd3
    have htr : (execute env net cid 1).2 =
        [entityReadReq env cid "invoice" 0,
         { method := "POST", endpoint := "/v3/company/" ++ cid ++ "/" ++ "invoice",
           qs := [],
           body := populateFields
             [("Id", env.param "invoiceId" 0),
              ("SyncToken", freshSyncToken env net cid "invoice" 0),
              ("sparse", JValue.bool true),
              ("CustomerRef", JValue.obj
                [("name", jget (freshRef env net cid "invoice" "CustomerRef" 0) "name"),
                 ("value", jget (freshRef env net cid "invoice" "CustomerRef" 0) "value")])]
             uf "invoice" }] := by
      simp [execute, hres, hop, huf, hie, asStr, asObj, execLoop, stepItem,
        invoiceStep, getRefAndSyncToken, jIsEmpty]
    refine ⟨_, htr, ?_, ?_, ?_⟩
    · rw [htr]; simp [entityReadReq]
    · rw [populateFields_lookup_ne _ _ _ _ (fun kv hk => (hks kv hk).1)]
      simp [List.lookup]
    · rw [populateFields_lookup_ne _ _ _ _ (fun kv hk => (hks kv hk).2)]
      simp [List.lookup]
  · obtain ⟨rfl, rfl⟩ := hd4
    have htr : (execute env net cid 1).2 =
        [entityReadReq env cid "payment" 0,
         { method := "POST", endpoint := "/v3/company/" ++ cid ++ "/" ++ "payment",
           qs := [],
           body := populateFields
             [("Id", env.param "paymentId" 0),
              ("SyncToken", freshSyncToken env net cid "payment" 0),
              ("sparse", JValue.bool true),
              ("CustomerRef", JValue.obj
                [("name", jget (freshRef env net cid "payment" "CustomerRef" 0) "name"),
                 ("value", jget (freshRef env net cid "payment" "CustomerRef" 0) "value")])]
             uf "payment" }] := by
      simp [execute, hres, hop, huf, hie, asStr, asObj, execLoop, stepItem,
        paymentStep, getRefAndSyncToken, jIsEmpty]
    refine ⟨_, htr, ?_, ?_, ?_⟩
    · rw [htr]; simp [entityReadReq]
    · rw [populateFields_lookup_ne _ _ _ _ (fun kv hk => (hks kv hk).1)]
      simp [List.lookup]
    · rw [populateFields_lookup_ne _ _ _ _ (fun kv hk => (hks kv hk).2)]
      simp [List.lookup]

/-- C9 witness: the theorem applied to the invoice update on id 55; the
single GET read resolves SyncToken 3 and the full customer reference. -/
theorem C9_witness :
    (("invoice", "CustomerRef") ∈ refUpdatePairs) ∧
      ∃ mq, (execute envC9 netC9 "123" 1).2 =
          [entityReadReq envC9 "123" "invoice" 0, mq] ∧
        ((execute envC9 netC9 "123" 1).2.filter
          (fun q => q.method == "GET")).length = 1 ∧
        List.lookup "CustomerRef" mq.body =
          some (.obj [("name",
            jget (freshRef envC9 netC9 "123" "invoice" "CustomerRef" 0) "name"),
            ("value",
            jget (freshRef envC9 netC9 "123" "invoice" "CustomerRef" 0) "value")]) ∧
        List.lookup "SyncToken" mq.body =
          some (freshSyncToken envC9 netC9 "123" "invoice" 0) :=
  ⟨by decide,
   C9_update_ref_and_token envC9 netC9 "123" "invoice" "CustomerRef"
     (by decide) rfl rfl [("DocNumber", JValue.str "9")] rfl (by simp)
     (by decide)⟩

/-- C8: for every mutation operation (update, delete, void on any resource
that supports it), the run trace over any number of input items is exactly,
per item, a fresh GET entity read followed by the mutation request, and the
SyncToken echoed by the mutation of item i is the token extracted from the
read issued during item i — never a token cached from another item. -/
theorem C8_fresh_sync_token (env : Env) (net : HttpRequest → JValue)
    (cid r op : String) (n : Nat) (hp : (r, op) ∈ mutationPairs)
    (hres : env.param "resource" 0 = .str r)
    (hop : env.param "operation" 0 = .str op)
    (hfields : ∀ i, ∃ uf, env.param "updateFields" i = .obj uf ∧ uf ≠ [] ∧
      ∀ kv ∈ uf, kv.1 ≠ "SyncToken") :
    ∃ muts : Nat → HttpRequest,
      (execute env net cid n).2 =
        segConcat (fun i => [entityReadReq env cid r i, muts i]) 0 n ∧
      ∀ i, syncTokenOf op (muts i) =
        some (freshSyncToken env net cid r i) := by
  simp only [mutationPairs, List.mem_cons, List.not_mem_nil, or_false,
    Prod.mk.injEq] at hp
  rcases hp with hc1 | hc2 | hc3 | hc4 | hc5 | hc6 | hc7 | hc8 | hc9 |
    hc10 | hc11
  · obtain ⟨rfl, rfl⟩ := hc1
    refine ⟨fun i => (⟨"POST", ("/v3/company/" ++ cid ++ "/" ++ "bill"), [],
          populateFields
            [("Id", env.param "billId" i),
             ("SyncToken", freshSyncToken env net cid "bill" i),
             ("sparse", JValue.bool true),
              ("VendorRef", JValue.obj
                [("name", jget (freshRef env net cid "bill" "VendorRef" i) "name"),
                 ("value", jget (freshRef env net cid "bill" "VendorRef" i) "value")])]
            (asObj (env.param "updateFields" i)) "bill"⟩ : HttpRequest), ?_, ?_⟩
    · have hstep : ∀ i prev,
          stepItem env net cid "bill" "update" i prev =
            .ok (jgetOpt (net (⟨"POST", ("/v3/company/" ++ cid ++ "/" ++ "bill"), [],
          populateFields
            [("Id", env.param "billId" i),
             ("SyncToken", freshSyncToken env net cid "bill" i),
             ("sparse", JValue.bool true),
              ("VendorRef", JValue.obj
                [("name", jget (freshRef env net cid "bill" "VendorRef" i) "name"),
                 ("value", jget (freshRef env net cid "bill" "VendorRef" i) "value")])]
            (asObj (env.param "updateFields" i)) "bill"⟩ : HttpRequest))
              (capitalCase "bill"))
              [entityReadReq env cid "bill" i,
               (⟨"POST", ("/v3/company/" ++ cid ++ "/" ++ "bill"), [],
          populateFields
            [("Id", env.param "billId" i),
             ("SyncToken", freshSyncToken env net cid "bill" i),
             ("sparse", JValue.bool true),
              ("VendorRef", JValue.obj
                [("name", jget (freshRef env net cid "bill" "VendorRef" i) "name"),
                 ("value", jget (freshRef env net cid "bill" "VendorRef" i) "value")])]
            (asObj (env.param "updateFields" i)) "bill"⟩ : HttpRequest)] := by
        intro i prev
        obtain ⟨uf, hufi, hnei, hksi⟩ := hfields i
        have hie : uf.isEmpty = false := by
          cases uf with
          | nil => exact absurd rfl hnei
          | cons a l => rfl
        simp [stepItem, billStep, getRefAndSyncToken, getSyncToken, hufi, hie,
          jIsEmpty, asObj]
      have hex : execute env net cid n =
          execLoop env net cid "bill" "update" n 0 none [] [] := by
        simp [execute, hres, hop, asStr]
      obtain ⟨out, ho⟩ :=
        execLoop_seg env net cid "bill" "update" _ _ hstep n 0 none [] []
      rw [hex, ho]
      rfl
    · intro i
      obtain ⟨uf, hufi, hnei, hksi⟩ := hfields i
      simp only [syncTokenOf]
      rw [if_neg (by decide), hufi]
      rw [show asObj (JValue.obj uf) = uf from rfl,
        populateFields_lookup_ne _ _ _ _ hksi]
      simp [List.lookup]
  · obtain ⟨rfl, rfl⟩ := hc2
    refine ⟨fun i => (⟨"POST", ("/v3/company/" ++ cid ++ "/" ++ "customer"), [],
          populateFields
            [("Id", env.param "customerId" i),
             ("SyncToken", freshSyncToken env net cid "customer" i),
             ("sparse", JValue.bool true)]
            (asObj (env.param "updateFields" i)) "customer"⟩ : HttpRequest), ?_, ?_⟩
    · have hstep : ∀ i prev,
          stepItem env net cid "customer" "update" i prev =
            .ok (jgetOpt (net (⟨"POST", ("/v3/company/" ++ cid ++ "/" ++ "customer"), [],
          populateFields
            [("Id", env.param "customerId" i),
             ("SyncToken", freshSyncToken env net cid "customer" i),
             ("sparse", JValue.bool true)]
            (asObj (env.param "updateFields" i)) "customer"⟩ : HttpRequest))
              (capitalCase "customer"))
              [entityReadReq env cid "customer" i,
               (⟨"POST", ("/v3/company/" ++ cid ++ "/" ++ "customer"), [],
          populateFields
            [("Id", env.param "customerId" i),
             ("SyncToken", freshSyncToken env net cid "customer" i),
             ("sparse", JValue.bool true)]
            (asObj (env.param "updateFields" i)) "customer"⟩ : HttpRequest)] := by
        intro i prev
        obtain ⟨uf, hufi, hnei, hksi⟩ := hfields i
        have hie : uf.isEmpty = false := by
          cases uf with
          | nil => exact absurd rfl hnei
          | cons a l => rfl
        simp [stepItem, customerStep, getRefAndSyncToken, getSyncToken, hufi, hie,
          jIsEmpty, asObj]
      have hex : execute env net cid n =
          execLoop env net cid "customer" "update" n 0 none [] [] := by
        simp [execute, hres, hop, asStr]
      obtain ⟨out, ho⟩ :=
        execLoop_seg env net cid "customer" "update" _ _ hstep n 0 none [] []
      rw [hex, ho]
      rfl
    · intro i
      obtain ⟨uf, hufi, hnei, hksi⟩ := hfields i
      simp only [syncTokenOf]
      rw [if_neg (by decide), hufi]
      rw [show asObj (JValue.obj uf) = uf from rfl,
        populateFields_lookup_ne _ _ _ _ hksi]
      simp [List.lookup]
  · obtain ⟨rfl, rfl⟩ := hc3
    refine ⟨fun i => (⟨"POST", ("/v3/company/" ++ cid ++ "/" ++ "employee"), [],
          populateFields
            [("Id", env.param "employeeId" i),
             ("SyncToken", freshSyncToken env net cid "employee" i),
             ("sparse", JValue.bool true)]
            (asObj (env.param "updateFields" i)) "employee"⟩ : HttpRequest), ?_, ?_⟩
    · have hstep : ∀ i prev,
          stepItem env net cid "employee" "update" i prev =
            .ok (jgetOpt (net (⟨"POST", ("/v3/company/" ++ cid ++ "/" ++ "employee"), [],
          populateFields
            [("Id", env.param "employeeId" i),
             ("SyncToken", freshSyncToken env net cid "employee" i),
             ("sparse", JValue.bool true)]
            (asObj (env.param "updateFields" i)) "employee"⟩ : HttpRequest))
              (capitalCase "employee"))
              [entityReadReq env cid "employee" i,
               (⟨"POST", ("/v3/company/" ++ cid ++ "/" ++ "employee"), [],
          populateFields
            [("Id", env.param "employeeId" i),
             ("SyncToken", freshSyncToken env net cid "employee" i),
             ("sparse", JValue.bool true)]
            (asObj (env.param "updateFields" i)) "employee"⟩ : HttpRequest)] := by
        intro i prev
        obtain ⟨uf, hufi, hnei, hksi⟩ := hfields i
        have hie : uf.isEmpty = false := by
          cases uf with
          | nil => exact absurd rfl hnei
          | cons a l => rfl
        simp [stepItem, employeeStep, getRefAndSyncToken, getSyncToken, hufi, hie,
          jIsEmpty, asObj]
      have hex : execute env net cid n =
          execLoop env net cid "employee" "update" n 0 none [] [] := by
        simp [execute, hres, hop, asStr]
      obtain ⟨out, ho⟩ :=
        execLoop_seg env net cid "employee" "update" _ _ hstep n 0 none [] []
      rw [hex, ho]
      rfl
    · intro i
      obtain ⟨uf, hufi, hnei, hksi⟩ := hfields i
      simp only [syncTokenOf]
      rw [if_neg (by decide), hufi]
      rw [show asObj (JValue.obj uf) = uf from rfl,
        populateFields_lookup_ne _ _ _ _ hksi]
      simp [List.lookup]
  · obtain ⟨rfl, rfl⟩ := hc4
    refine ⟨fun i => (⟨"POST", ("/v3/company/" ++ cid ++ "/" ++ "estimate"), [],
          populateFields
            [("Id", env.param "estimateId" i),
             ("SyncToken", freshSyncToken env net cid "estimate" i),
             ("sparse", JValue.bool true),
              ("CustomerRef", JValue.obj
                [("name", jget (freshRef env net cid "estimate" "CustomerRef" i) "name"),
                 ("value", jget (freshRef env net cid "estimate" "CustomerRef" i) "value")])]
            (asObj (env.param "updateFields" i)) "estimate"⟩ : HttpRequest), ?_, ?_⟩
    · have hstep : ∀ i prev,
          stepItem env net cid "estimate" "update" i prev =
            .ok (jgetOpt (net (⟨"POST", ("/v3/company/" ++ cid ++ "/" ++ "estimate"), [],
          populateFields
            [("Id", env.param "estimateId" i),
             ("SyncToken", freshSyncToken env net cid "estimate" i),
             ("sparse", JValue.bool true),
              ("CustomerRef", JValue.obj
                [("name", jget (freshRef env net cid "estimate" "CustomerRef" i) "name"),
                 ("value", jget (freshRef env net cid "estimate" "CustomerRef" i) "value")])]
            (asObj (env.param "updateFields" i)) "estimate"⟩ : HttpRequest))
              (capitalCase "estimate"))
              [entityReadReq env cid "estimate" i,
               (⟨"POST", ("/v3/company/" ++ cid ++ "/" ++ "estimate"), [],
          populateFields
            [("Id", env.param "estimateId" i),
             ("SyncToken", freshSyncToken env net cid "estimate" i),
             ("sparse", JValue.bool true),
              ("CustomerRef", JValue.obj
                [("name", jget (freshRef env net cid "estimate" "CustomerRef" i) "name"),
                 ("value", jget (freshRef env net cid "estimate" "CustomerRef" i) "value")])]
            (asObj (env.param "updateFields" i)) "estimate"⟩ : HttpRequest)] := by
        intro i prev
        obtain ⟨uf, hufi, hnei, hksi⟩ := hfields i
        have hie : uf.isEmpty = false := by
          cases uf with
          | nil => exact absurd rfl hnei
          | cons a l => rfl
        simp [stepItem, estimateStep, getRefAndSyncToken, getSyncToken, hufi, hie,
          jIsEmpty, asObj]
      have hex : execute env net cid n =
          execLoop env net cid "estimate" "update" n 0 none [] [] := by
        simp [execute, hres, hop, asStr]
      obtain ⟨out, ho⟩ :=
        execLoop_seg env net cid "estimate" "update" _ _ hstep n 0 none [] []
      rw [hex, ho]
      rfl
    · intro i
      obtain ⟨uf, hufi, hnei, hksi⟩ := hfields i
      simp only [syncTokenOf]
      rw [if_neg (by decide), hufi]
      rw [show asObj (JValue.obj uf) = uf from rfl,
        populateFields_lookup_ne _ _ _ _ hksi]
      simp [List.lookup]
  · obtain ⟨rfl, rfl⟩ := hc5
    refine ⟨fun i => (⟨"POST", ("/v3/company/" ++ cid ++ "/" ++ "invoice"), [],
          populateFields
            [("Id", env.param "invoiceId" i),
             ("SyncToken", freshSyncToken env net cid "invoice" i),
             ("sparse", JValue.bool true),
              ("CustomerRef", JValue.obj
                [("name", jget (freshRef env net cid "invoice" "CustomerRef" i) "name"),
                 ("value", jget (freshRef env net cid "invoice" "CustomerRef" i) "value")])]
            (asObj (env.param "updateFields" i)) "invoice"⟩ : HttpRequest), ?_, ?_⟩
    · have hstep : ∀ i prev,
          stepItem env net cid "invoice" "update" i prev =
            .ok (jgetOpt (net (⟨"POST", ("/v3/company/" ++ cid ++ "/" ++ "invoice"), [],
          populateFields
            [("Id", env.param "invoiceId" i),
             ("SyncToken", freshSyncToken env net cid "invoice" i),
             ("sparse", JValue.bool true),
              ("CustomerRef", JValue.obj
                [("name", jget (freshRef env net cid "invoice" "CustomerRef" i) "name"),
                 ("value", jget (freshRef env net cid "invoice" "CustomerRef" i) "value")])]
            (asObj (env.param "updateFields" i)) "invoice"⟩ : HttpRequest))
              (capitalCase "invoice"))
              [entityReadReq env cid "invoice" i,
               (⟨"POST", ("/v3/company/" ++ cid ++ "/" ++ "invoice"), [],
          populateFields
            [("Id", env.param "invoiceId" i),
             ("SyncToken", freshSyncToken env net cid "invoice" i),
             ("sparse", JValue.bool true),
              ("CustomerRef", JValue.obj
                [("name", jget (freshRef env net cid "invoice" "CustomerRef" i) "name"),
                 ("value", jget (freshRef env net cid "invoice" "CustomerRef" i) "value")])]
            (asObj (env.param "updateFields" i)) "invoice"⟩ : HttpRequest)] := by
        intro i prev
        obtain ⟨uf, hufi, hnei, hksi⟩ := hfields i
        have hie : uf.isEmpty = false := by
          cases uf with
          | nil => exact absurd rfl hnei
          | cons a l => rfl
        simp [stepItem, invoiceStep, getRefAndSyncToken, getSyncToken, hufi, hie,
          jIsEmpty, asObj]
      have hex : execute env net cid n =
          execLoop env net cid "invoice" "update" n 0 none [] [] := by
        simp [execute, hres, hop, asStr]
      obtain ⟨out, ho⟩ :=
        execLoop_seg env net cid "invoice" "update" _ _ hstep n 0 none [] []
      rw [hex, ho]
      rfl
    · intro i
      obtain ⟨uf, hufi, hnei, hksi⟩ := hfields i
      simp only [syncTokenOf]
      rw [if_neg (by decide), hufi]
      rw [show asObj (JValue.obj uf) = uf from rfl,
        populateFields_lookup_ne _ _ _ _ hksi]
      simp [List.lookup]
  · obtain ⟨rfl, rfl⟩ := hc6
    refine ⟨fun i => (⟨"POST", ("/v3/company/" ++ cid ++ "/" ++ "invoice"),
          [("operation", JValue.str "delete")],
          [("Id", env.param "invoiceId" i),
           ("SyncToken", freshSyncToken env net cid "invoice" i)]⟩ : HttpRequest), ?_, ?_⟩
    · have hstep : ∀ i prev,
          stepItem env net cid "invoice" "delete" i prev =
            .ok (jgetOpt (net (⟨"POST", ("/v3/company/" ++ cid ++ "/" ++ "invoice"),
          [("operation", JValue.str "delete")],
          [("Id", env.param "invoiceId" i),
           ("SyncToken", freshSyncToken env net cid "invoice" i)]⟩ : HttpRequest))
              (capitalCase "invoice"))
              [entityReadReq env cid "invoice" i,
               (⟨"POST", ("/v3/company/" ++ cid ++ "/" ++ "invoice"),
          [("operation", JValue.str "delete")],
          [("Id", env.param "invoiceId" i),
           ("SyncToken", freshSyncToken env net cid "invoice" i)]⟩ : HttpRequest)] := by
        intro i prev
        simp [stepItem, invoiceStep, getSyncToken]
      have hex : execute env net cid n =
          execLoop env net cid "invoice" "delete" n 0 none [] [] := by
        simp [execute, hres, hop, asStr]
      obtain ⟨out, ho⟩ :=
        execLoop_seg env net cid "invoice" "delete" _ _ hstep n 0 none [] []
      rw [hex, ho]
      rfl
    · intro i
      simp only [syncTokenOf]
      rw [if_neg (by decide)]
      simp [List.lookup]
  · obtain ⟨rfl, rfl⟩ := hc7
    refine ⟨fun i => (⟨"POST", ("/v3/company/" ++ cid ++ "/" ++ "invoice"),
          [("Id", env.param "invoiceId" i),
           ("SyncToken", freshSyncToken env net cid "invoice" i),
           ("operation", JValue.str "void")], []⟩ : HttpRequest), ?_, ?_⟩
    · have hstep : ∀ i prev,
          stepItem env net cid "invoice" "void" i prev =
            .ok (jgetOpt (net (⟨"POST", ("/v3/company/" ++ cid ++ "/" ++ "invoice"),
          [("Id", env.param "invoiceId" i),
           ("SyncToken", freshSyncToken env net cid "invoice" i),
           ("operation", JValue.str "void")], []⟩ : HttpRequest))
              (capitalCase "invoice"))
              [entityReadReq env cid "invoice" i,
               (⟨"POST", ("/v3/company/" ++ cid ++ "/" ++ "invoice"),
          [("Id", env.param "invoiceId" i),
           ("SyncToken", freshSyncToken env net cid "invoice" i),
           ("operation", JValue.str "void")], []⟩ : HttpRequest)] := by
        intro i prev
        simp [stepItem, invoiceStep, getSyncToken]
      have hex : execute env net cid n =
          execLoop env net cid "invoice" "void" n 0 none [] [] := by
        simp [execute, hres, hop, asStr]
      obtain ⟨out, ho⟩ :=
        execLoop_seg env net cid "invoice" "void" _ _ hstep n 0 none [] []
      rw [hex, ho]
      rfl
    · intro i
      simp [syncTokenOf, List.lookup]
  · obtain ⟨rfl, rfl⟩ := hc8
    refine ⟨fun i => (⟨"POST", ("/v3/company/" ++ cid ++ "/" ++ "payment"), [],
          populateFields
            [("Id", env.param "paymentId" i),
             ("SyncToken", freshSyncToken env net cid "payment" i),
             ("sparse", JValue.bool true),
              ("CustomerRef", JValue.obj
                [("name", jget (freshRef env net cid "payment" "CustomerRef" i) "name"),
                 ("value", jget (freshRef env net cid "payment" "CustomerRef" i) "value")])]
            (asObj (env.param "updateFields" i)) "payment"⟩ : HttpRequest), ?_, ?_⟩
    · have hstep : ∀ i prev,
          stepItem env net cid "payment" "update" i prev =
            .ok (jgetOpt (net (⟨"POST", ("/v3/company/" ++ cid ++ "/" ++ "payment"), [],
          populateFields
            [("Id", env.param "paymentId" i),
             ("SyncToken", freshSyncToken env net cid "payment" i),
             ("sparse", JValue.bool true),
              ("CustomerRef", JValue.obj
                [("name", jget (freshRef env net cid "payment" "CustomerRef" i) "name"),
                 ("value", jget (freshRef env net cid "payment" "CustomerRef" i) "value")])]
            (asObj (env.param "updateFields" i)) "payment"⟩ : HttpRequest))
              (capitalCase "payment"))
              [entityReadReq env cid "payment" i,
               (⟨"POST", ("/v3/company/" ++ cid ++ "/" ++ "payment"), [],
          populateFields
            [("Id", env.param "paymentId" i),
             ("SyncToken", freshSyncToken env net cid "payment" i),
             ("sparse", JValue.bool true),
              ("CustomerRef", JValue.obj
                [("name", jget (freshRef env net cid "payment" "CustomerRef" i) "name"),
                 ("value", jget (freshRef env net cid "payment" "CustomerRef" i) "value")])]
            (asObj (env.param "updateFields" i)) "payment"⟩ : HttpRequest)] := by
        intro i prev
        obtain ⟨uf, hufi, hnei, hksi⟩ := hfields i
        have hie : uf.isEmpty = false := by
          cases uf with
          | nil => exact absurd rfl hnei
          | cons a l => rfl
        simp [stepItem, paymentStep, getRefAndSyncToken, getSyncToken, hufi, hie,
          jIsEmpty, asObj]
      have hex : execute env net cid n =
          execLoop env net cid "payment" "update" n 0 none [] [] := by
        simp [execute, hres, hop, asStr]
      obtain ⟨out, ho⟩ :=
        execLoop_seg env net cid "payment" "update" _ _ hstep n 0 none [] []
      rw [hex, ho]
      rfl
    · intro i
      obtain ⟨uf, hufi, hnei, hksi⟩ := hfields i
      simp only [syncTokenOf]
      rw [if_neg (by decide), hufi]
      rw [show asObj (JValue.obj uf) = uf from rfl,
        populateFields_lookup_ne _ _ _ _ hksi]
      simp [List.lookup]
  · obtain ⟨rfl, rfl⟩ := hc9
    refine ⟨fun i => (⟨"POST", ("/v3/company/" ++ cid ++ "/" ++ "payment"),
          [("operation", JValue.str "delete")],
          [("Id", env.param "paymentId" i),
           ("SyncToken", freshSyncToken env net cid "payment" i)]⟩ : HttpRequest), ?_, ?_⟩
    · have hstep : ∀ i prev,
          stepItem env net cid "payment" "delete" i prev =
            .ok (jgetOpt (net (⟨"POST", ("/v3/company/" ++ cid ++ "/" ++ "payment"),
          [("operation", JValue.str "delete")],
          [("Id", env.param "paymentId" i),
           ("SyncToken", freshSyncToken env net cid "payment" i)]⟩ : HttpRequest))
              (capitalCase "payment"))
              [entityReadReq env cid "payment" i,
               (⟨"POST", ("/v3/company/" ++ cid ++ "/" ++ "payment"),
          [("operation", JValue.str "delete")],
          [("Id", env.param "paymentId" i),
           ("SyncToken", freshSyncToken env net cid "payment" i)]⟩ : HttpRequest)] := by
        intro i prev
        simp [stepItem, paymentStep, getSyncToken]
      have hex : execute env net cid n =
          execLoop env net cid "payment" "delete" n 0 none [] [] := by
        simp [execute, hres, hop, asStr]
      obtain ⟨out, ho⟩ :=
        execLoop_seg env net cid "payment" "delete" _ _ hstep n 0 none [] []
      rw [hex, ho]
      rfl
    · intro i
      simp only [syncTokenOf]
      rw [if_neg (by decide)]
      simp [List.lookup]
  · obtain ⟨rfl, rfl⟩ := hc10
    refine ⟨fun i => (⟨"POST", ("/v3/company/" ++ cid ++ "/" ++ "payment"),
          [("Id", env.param "paymentId" i),
           ("SyncToken", freshSyncToken env net cid "payment" i),
           ("operation", JValue.str "void")], []⟩ : HttpRequest), ?_, ?_⟩
    · have hstep : ∀ i prev,
          stepItem env net cid "payment" "void" i prev =
            .ok (jgetOpt (net (⟨"POST", ("/v3/company/" ++ cid ++ "/" ++ "payment"),
          [("Id", env.param "paymentId" i),
           ("SyncToken", freshSyncToken env net cid "payment" i),
           ("operation", JValue.str "void")], []⟩ : HttpRequest))
              (capitalCase "payment"))
              [entityReadReq env cid "payment" i,
               (⟨"POST", ("/v3/company/" ++ cid ++ "/" ++ "payment"),
          [("Id", env.param "paymentId" i),
           ("SyncToken", freshSyncToken env net cid "payment" i),
           ("operation", JValue.str "void")], []⟩ : HttpRequest)] := by
        intro i prev
        simp [stepItem, paymentStep, getSyncToken]
      have hex : execute env net cid n =
          execLoop env net cid "payment" "void" n 0 none [] [] := by
        simp [execute, hres, hop, asStr]
      obtain ⟨out, ho⟩ :=
        execLoop_seg env net cid "payment" "void" _ _ hstep n 0 none [] []
      rw [hex, ho]
      rfl
    · intro i
      simp [syncTokenOf, List.lookup]
  · obtain ⟨rfl, rfl⟩ := hc11
    refine ⟨fun i => (⟨"POST", ("/v3/company/" ++ cid ++ "/" ++ "vendor"), [],
          populateFields
            [("Id", env.param "vendorId" i),
             ("SyncToken", freshSyncToken env net cid "vendor" i),
             ("sparse", JValue.bool true)]
            (asObj (env.param "updateFields" i)) "vendor"⟩ : HttpRequest), ?_, ?_⟩
    · have hstep : ∀ i prev,
          stepItem env net cid "vendor" "update" i prev =
            .ok (jgetOpt (net (⟨"POST", ("/v3/company/" ++ cid ++ "/" ++ "vendor"), [],
          populateFields
            [("Id", env.param "vendorId" i),
             ("SyncToken", freshSyncToken env net cid "vendor" i),
             ("sparse", JValue.bool true)]
            (asObj (env.param "updateFields" i)) "vendor"⟩ : HttpRequest))
              (capitalCase "vendor"))
              [entityReadReq env cid "vendor" i,
               (⟨"POST", ("/v3/company/" ++ cid ++ "/" ++ "vendor"), [],
          populateFields
            [("Id", env.param "vendorId" i),
             ("SyncToken", freshSyncToken env net cid "vendor" i),
             ("sparse", JValue.bool true)]
            (asObj (env.param "updateFields" i)) "vendor"⟩ : HttpRequest)] := by
        intro i prev
        obtain ⟨uf, hufi, hnei, hksi⟩ := hfields i
        have hie : uf.isEmpty = false := by
          cases uf with
          | nil => exact absurd rfl hnei
          | cons a l => rfl
        simp [stepItem, vendorStep, getRefAndSyncToken, getSyncToken, hufi, hie,
          jIsEmpty, asObj]
      have hex : execute env net cid n =
          execLoop env net cid "vendor" "update" n 0 none [] [] := by
        simp [execute, hres, hop, asStr]
      obtain ⟨out, ho⟩ :=
        execLoop_seg env net cid "vendor" "update" _ _ hstep n 0 none [] []
      rw [hex, ho]
      rfl
    · intro i
      obtain ⟨uf, hufi, hnei, hksi⟩ := hfields i
      simp only [syncTokenOf]
      rw [if_neg (by decide), hufi]
      rw [show asObj (JValue.obj uf) = uf from rfl,
        populateFields_lookup_ne _ _ _ _ hksi]
      simp [List.lookup]

/-- C8 witness: the theorem applied to invoice void over two input items;
each item issues its own GET read and echoes that read's token. -/
theorem C8_witness :
    (("invoice", "void") ∈ mutationPairs) ∧
      ∃ muts : Nat → HttpRequest,
        (execute envC8 netC8 "123" 2).2 =
          segConcat (fun i => [entityReadReq envC8 "123" "invoice" i, muts i])
            0 2 ∧
        ∀ i, syncTokenOf "void" (muts i) =
          some (freshSyncToken envC8 netC8 "123" "invoice" i) :=
  ⟨by decide,
   C8_fresh_sync_token envC8 netC8 "123" "invoice" "void" 2 (by decide) rfl rfl
     (fun _ => ⟨[("DocNumber", JValue.str "1")], rfl, by simp, by decide⟩)⟩

theorem stepItem_overrideTags (env : Env) (g : String → Nat → JValue)
    (net : HttpRequest → JValue) (cid r op : String) (i : Nat)
    (prev : Option JValue) :
    stepItem (overrideTags env g) net cid r op i prev =
      stepItem env net cid r op i prev := by
  by_cases h1 : r = "bill"
  · subst h1
    simp [stepItem, billStep, getRefAndSyncToken, getSyncToken, entityReadReq,
      freshSyncToken, freshRef, handleListing, overrideTags]
  by_cases h2 : r = "customer"
  · subst h2
    simp [stepItem, customerStep, getSyncToken, entityReadReq, freshSyncToken,
      handleListing, overrideTags, h1]
  by_cases h3 : r = "employee"
  · subst h3
    simp [stepItem, employeeStep, getSyncToken, entityReadReq, freshSyncToken,
      handleListing, overrideTags, h1, h2]
  by_cases h4 : r = "estimate"
  · subst h4
    simp [stepItem, estimateStep, getRefAndSyncToken, getSyncToken,
      entityReadReq, freshSyncToken, freshRef, handleListing, overrideTags,
      h1, h2, h3]
  by_cases h5 : r = "invoice"
  · subst h5
    simp [stepItem, invoiceStep, getRefAndSyncToken, getSyncToken,
      entityReadReq, freshSyncToken, freshRef, handleListing, overrideTags,
      h1, h2, h3, h4]
  by_cases h6 : r = "item"
  · subst h6
    simp [stepItem, itemStep, handleListing, overrideTags, h1, h2, h3, h4, h5]
  by_cases h7 : r = "payment"
  · subst h7
    simp [stepItem, paymentStep, getRefAndSyncToken, getSyncToken,
      entityReadReq, freshSyncToken, freshRef, handleListing, overrideTags,
      h1, h2, h3, h4, h5, h6]
  by_cases h8 : r = "vendor"
  · subst h8
    simp [stepItem, vendorStep, getSyncToken, entityReadReq, freshSyncToken,
      handleListing, overrideTags, h1, h2, h3, h4, h5, h6, h7]
  simp [stepItem, h1, h2, h3, h4, h5, h6, h7, h8]

/-- C3 (amended): the dispatcher reads the resource and operation tags once,
at item index 0, and routes every item of the run by those two values:
replacing the tags of any item index other than 0 by arbitrary values
changes nothing about the run. -/
theorem C3_tags_read_once (env : Env) (g : String → Nat → JValue)
    (net : HttpRequest → JValue) (cid : String) (n : Nat) :
    execute (overrideTags env g) net cid n = execute env net cid n := by
  have hstep := fun r op i prev =>
    stepItem_overrideTags env g net cid r op i prev
  have hloop : ∀ r op rem i0 prev rd tr,
      execLoop (overrideTags env g) net cid r op rem i0 prev rd tr =
        execLoop env net cid r op rem i0 prev rd tr := by
    intro r op rem
    induction rem with
    | zero => intro i0 prev rd tr; rfl
    | succ m ih =>
      intro i0 prev rd tr
      simp only [execLoop, hstep]
      cases hs : stepItem env net cid r op i0 prev with
      | ok resp reqs => simp [ih]
      | thrown msg reqs => simp
      | binary j rr v reqs => simp
  have htag : ∀ p, p = "resource" ∨ p = "operation" →
      (overrideTags env g).param p 0 = env.param p 0 := by
    intro p hp
    simp [overrideTags]
  unfold execute
  rw [htag "resource" (Or.inl rfl), htag "operation" (Or.inr rfl), hloop]

/-- C3 counterexample: a run whose item index 1 carries its own tags
(customer, get), yet the request issued while processing item 1 is the
item get built from the index 0 tags — the dispatcher never reads the
tags of item 1, refuting per-item routing. -/
theorem C3_counterexample_item1_tags_ignored :
    envC3.param "resource" 1 = .str "customer" ∧
      envC3.param "operation" 1 = .str "get" ∧
      execute envC3 netEmptyObj "123" 2 =
        (.ok [none, none],
         [⟨"GET", "/v3/company/123/item/A", [], []⟩,
          ⟨"GET", "/v3/company/123/item/B", [], []⟩]) ∧
      ("/v3/company/123/item/B" : String) ≠ "/v3/company/123/customer/C" :=
  ⟨rfl, rfl, rfl, by decide⟩
